import Mathlib

/-!
Verification of the movie-data cleaning pipeline (scripts/clean.py) and the
KPI step (scripts/analysis.py).

The embedding is shallow: Python/pandas values stored in dataframe cells are
modelled by the inductive type `JVal` (None and float NaN are both `null`,
which is exactly how pandas treats missing data); a dataframe is a list of
column names together with a list of rows, each row an association list from
column names to cells.  Fallible Python operations (KeyError, TypeError,
AttributeError) are modelled with `Except Unit`.  Machine floats carry exact
rationals here; the claims under study only concern null-propagation,
equality with zero and division by a million, where rational arithmetic
agrees with IEEE arithmetic on the values involved (division by zero, which
IEEE maps to an infinity, is modelled by the explicit `JVal.inf`
constructor).
-/

attribute [local semireducible] Rat.add Rat.sub Rat.mul Rat.inv

namespace MovieClean

/-- A Python value as it can appear in a dataframe cell: `null` stands for
Python `None` and for the float `NaN` pandas uses for missing data; `num`
is an int or float (exact rational); `inf` is an IEEE infinity
(`pos = true` for `+inf`), which arises only from division by zero; `arr`
is a Python list and `obj` a Python dict with string keys. -/
inductive JVal where
  | null
  | bool (b : Bool)
  | num (q : ℚ)
  | str (s : String)
  | inf (pos : Bool)
  | arr (xs : List JVal)
  | obj (fs : List (String × JVal))

mutual

def JVal.decEq : (a b : JVal) → Decidable (a = b)
  | .null, .null => isTrue rfl
  | .bool a, .bool b =>
    match instDecidableEqBool a b with
    | isTrue h => isTrue (by rw [h])
    | isFalse h => isFalse (fun hh => h (by cases hh; rfl))
  | .num a, .num b =>
    match instDecidableEqRat a b with
    | isTrue h => isTrue (by rw [h])
    | isFalse h => isFalse (fun hh => h (by cases hh; rfl))
  | .str a, .str b =>
    match instDecidableEqString a b with
    | isTrue h => isTrue (by rw [h])
    | isFalse h => isFalse (fun hh => h (by cases hh; rfl))
  | .inf a, .inf b =>
    match instDecidableEqBool a b with
    | isTrue h => isTrue (by rw [h])
    | isFalse h => isFalse (fun hh => h (by cases hh; rfl))
  | .arr as, .arr bs =>
    match JVal.decEqList as bs with
    | isTrue h => isTrue (by rw [h])
    | isFalse h => isFalse (fun hh => h (by cases hh; rfl))
  | .obj fs, .obj gs =>
    match JVal.decEqFields fs gs with
    | isTrue h => isTrue (by rw [h])
    | isFalse h => isFalse (fun hh => h (by cases hh; rfl))
  | .null, .bool _ | .null, .num _ | .null, .str _ | .null, .inf _
  | .null, .arr _ | .null, .obj _ => isFalse (by intro h; cases h)
  | .bool _, .null | .bool _, .num _ | .bool _, .str _ | .bool _, .inf _
  | .bool _, .arr _ | .bool _, .obj _ => isFalse (by intro h; cases h)
  | .num _, .null | .num _, .bool _ | .num _, .str _ | .num _, .inf _
  | .num _, .arr _ | .num _, .obj _ => isFalse (by intro h; cases h)
  | .str _, .null | .str _, .bool _ | .str _, .num _ | .str _, .inf _
  | .str _, .arr _ | .str _, .obj _ => isFalse (by intro h; cases h)
  | .inf _, .null | .inf _, .bool _ | .inf _, .num _ | .inf _, .str _
  | .inf _, .arr _ | .inf _, .obj _ => isFalse (by intro h; cases h)
  | .arr _, .null | .arr _, .bool _ | .arr _, .num _ | .arr _, .str _
  | .arr _, .inf _ | .arr _, .obj _ => isFalse (by intro h; cases h)
  | .obj _, .null | .obj _, .bool _ | .obj _, .num _ | .obj _, .str _
  | .obj _, .inf _ | .obj _, .arr _ => isFalse (by intro h; cases h)

def JVal.decEqList : (as bs : List JVal) → Decidable (as = bs)
  | [], [] => isTrue rfl
  | [], _ :: _ => isFalse (by intro h; cases h)
  | _ :: _, [] => isFalse (by intro h; cases h)
  | a :: as, b :: bs =>
    match JVal.decEq a b, JVal.decEqList as bs with
    | isTrue h1, isTrue h2 => isTrue (by rw [h1, h2])
    | isFalse h1, _ => isFalse (fun hh => h1 (by cases hh; rfl))
    | _, isFalse h2 => isFalse (fun hh => h2 (by cases hh; rfl))

def JVal.decEqFields : (fs gs : List (String × JVal)) → Decidable (fs = gs)
  | [], [] => isTrue rfl
  | [], _ :: _ => isFalse (by intro h; cases h)
  | _ :: _, [] => isFalse (by intro h; cases h)
  | (k, v) :: fs, (l, w) :: gs =>
    match instDecidableEqString k l, JVal.decEq v w, JVal.decEqFields fs gs with
    | isTrue h1, isTrue h2, isTrue h3 => isTrue (by rw [h1, h2, h3])
    | isFalse h1, _, _ => isFalse (fun hh => h1 (by cases hh; rfl))
    | _, isFalse h2, _ => isFalse (fun hh => h2 (by cases hh; rfl))
    | _, _, isFalse h3 => isFalse (fun hh => h3 (by cases hh; rfl))

end

instance : DecidableEq JVal := JVal.decEq

instance : DecidableEq (Except Unit JVal) := fun a b =>
  match a, b with
  | .ok x, .ok y =>
    match JVal.decEq x y with
    | isTrue h => isTrue (by rw [h])
    | isFalse h => isFalse (fun hh => h (by cases hh; rfl))
  | .error x, .error y => isTrue (by cases x; cases y; rfl)
  | .ok _, .error _ => isFalse (by intro h; cases h)
  | .error _, .ok _ => isFalse (by intro h; cases h)

/-- Look a key up in a Python dict (association list); first binding wins,
as dict keys are unique in Python. -/
def getVal (k : String) : List (String × JVal) → Option JVal
  | [] => none
  | (l, v) :: fs => if l = k then some v else getVal k fs

/-- Membership test of the substring `needle` in `hay`, as Python
`needle in hay` on strings. -/
def strContains (needle hay : String) : Bool :=
  hay.toList.tails.any (fun t => needle.toList.isPrefixOf t)

/-- Python `k in v`: key membership for dicts, element membership for
lists, substring test for strings; a `TypeError` for every other value. -/
def pyMem (k : String) : JVal → Except Unit Bool
  | .obj fs => .ok (getVal k fs).isSome
  | .arr xs => .ok (xs.contains (JVal.str k))
  | .str s => .ok (strContains k s)
  | _ => .error ()

/-- Python `v[k]` with a string key: a dict lookup (`KeyError` when the key
is absent); a `TypeError` on lists, strings and every other value, whose
subscripts must be integers. -/
def pySubscr (k : String) : JVal → Except Unit JVal
  | .obj fs =>
    match getVal k fs with
    | some v => .ok v
    | none => .error ()
  | _ => .error ()

/-- Python `v.get(k, d)`: only dicts have a `get` method (`AttributeError`
otherwise); returns the default when the key is absent. -/
def pyGetD (v : JVal) (k : String) (d : JVal) : Except Unit JVal :=
  match v with
  | .obj fs => .ok ((getVal k fs).getD d)
  | _ => .error ()

/-- Python `v[:n]`: slicing is defined on lists and strings and is a
`TypeError` on dicts and scalars. -/
def pySliceTake (n : Nat) : JVal → Except Unit JVal
  | .arr xs => .ok (.arr (xs.take n))
  | .str s => .ok (.str (String.mk (s.toList.take n)))
  | _ => .error ()

/-- Python iteration `for x in v`: lists yield their elements, strings
their one-character substrings, dicts their keys; scalars are not
iterable (`TypeError`). -/
def pyIter : JVal → Except Unit (List JVal)
  | .arr xs => .ok xs
  | .str s => .ok (s.toList.map (fun c => JVal.str (String.mk [c])))
  | .obj fs => .ok (fs.map (fun p => JVal.str p.1))
  | _ => .error ()

/-- Python `len(v)`: defined on lists, strings and dicts; a `TypeError`
on scalars. -/
def pyLen : JVal → Except Unit Nat
  | .arr xs => .ok xs.length
  | .str s => .ok s.length
  | .obj fs => .ok fs.length
  | _ => .error ()

/-- Exception-propagating sequencing (the monadic bind of `Except`,
written as an explicit match so that proofs reduce step by step). -/
def bindE (x : Except Unit α) (f : α → Except Unit β) : Except Unit β :=
  match x with
  | .ok a => f a
  | .error e => .error e

/-- Map a fallible function over a list, propagating the first error, as a
Python list comprehension propagates exceptions. -/
def mapExc (f : α → Except Unit β) : List α → Except Unit (List β)
  | [] => .ok []
  | x :: xs =>
    bindE (f x) (fun y => bindE (mapExc f xs) (fun ys => .ok (y :: ys)))

/-- The list comprehension shared by every extractor in clean.py:
collect `e["name"]` for each element `e` such that `"name" in e`.  The
membership test and the subscript can each raise on malformed elements. -/
def compNames : List JVal → Except Unit (List JVal)
  | [] => .ok []
  | x :: xs =>
    bindE (pyMem "name" x) (fun b =>
      if b then
        bindE (pySubscr "name" x) (fun v =>
          bindE (compNames xs) (fun rest => .ok (v :: rest)))
      else
        compNames xs)

/-- Python `"|".join(vs)`: every element must be a string, otherwise a
`TypeError` is raised. -/
def pyJoinBar (vs : List JVal) : Except Unit JVal :=
  bindE (mapExc (fun v =>
    match v with
    | JVal.str s => Except.ok s
    | _ => Except.error ()) vs)
    (fun ss => .ok (.str (String.intercalate "|" ss)))

/-- clean.py `extract_collection_name`: the `name` field of a dict, else
NaN.  This is the only extractor that is total on all inputs. -/
def extract_collection_name (collection : JVal) : Except Unit JVal :=
  match collection with
  | .obj fs => (getVal "name" fs).elim (.ok .null) (fun v => .ok v)
  | _ => .ok .null

/-- Body shared verbatim by clean.py `extract_genres`,
`extract_spoken_languages`, `extract_production_countries` and
`extract_production_companies` (the four source functions are textually
identical up to variable names): on a non-empty list, join the `name`
fields of its elements with a pipe; on everything else return NaN. -/
def extractNameList (v : JVal) : Except Unit JVal :=
  match v with
  | .arr xs =>
    if xs.isEmpty then .ok .null
    else bindE (compNames xs) pyJoinBar
  | _ => .ok .null

/-- clean.py `extract_genres`. -/
def extract_genres (genres_list : JVal) : Except Unit JVal :=
  extractNameList genres_list

/-- clean.py `extract_spoken_languages`. -/
def extract_spoken_languages (languages_list : JVal) : Except Unit JVal :=
  extractNameList languages_list

/-- clean.py `extract_production_countries`. -/
def extract_production_countries (countries_list : JVal) : Except Unit JVal :=
  extractNameList countries_list

/-- clean.py `extract_production_companies`. -/
def extract_production_companies (companies_list : JVal) : Except Unit JVal :=
  extractNameList companies_list

/-- clean.py `extract_cast`: when credits is a dict with a `cast` key,
slice its first five entries and pipe-join their `name` fields; else NaN. -/
def extract_cast (credits : JVal) : Except Unit JVal :=
  match credits with
  | .obj fs =>
    (getVal "cast" fs).elim (.ok .null) (fun cv =>
      bindE (pySliceTake 5 cv) (fun sliced =>
        bindE (pyIter sliced) (fun elems =>
          bindE (compNames elems) pyJoinBar)))
  | _ => .ok .null

/-- clean.py `extract_cast_size`: the length of the value under the
`cast` key when present, else NaN. -/
def extract_cast_size (credits : JVal) : Except Unit JVal :=
  match credits with
  | .obj fs =>
    (getVal "cast" fs).elim (.ok .null) (fun cv =>
      bindE (pyLen cv) (fun n => .ok (.num n)))
  | _ => .ok .null

/-- clean.py `extract_crew_size`: the length of the value under the
`crew` key when present, else NaN. -/
def extract_crew_size (credits : JVal) : Except Unit JVal :=
  match credits with
  | .obj fs =>
    (getVal "crew" fs).elim (.ok .null) (fun cv =>
      bindE (pyLen cv) (fun n => .ok (.num n)))
  | _ => .ok .null

/-- The scan inside clean.py `extract_director`: return the `name` of the
first crew member whose `job` equals "Director" (default "Unknown" when
that member has no name); "Unknown" when the scan finds no director.
`person.get` raises on non-dict crew elements. -/
def directorScan : List JVal → Except Unit JVal
  | [] => .ok (.str "Unknown")
  | p :: ps =>
    bindE (pyGetD p "job" .null) (fun j =>
      if j = .str "Director" then
        pyGetD p "name" (.str "Unknown")
      else
        directorScan ps)

/-- clean.py `extract_director`. -/
def extract_director (credits : JVal) : Except Unit JVal :=
  match credits with
  | .obj fs =>
    (getVal "crew" fs).elim (.ok (.str "Unknown")) (fun cv =>
      bindE (pyIter cv) directorScan)
  | _ => .ok (.str "Unknown")

/-- One dataframe row: an association list from column names to cells.
A key absent from the list holds the missing value NaN (see `getCell`),
exactly as a record lacking a field receives NaN when pandas assembles a
frame from JSON records. -/
def Row := List (String × JVal)

instance : DecidableEq Row := fun a b => JVal.decEqFields a b

/-- Read a cell: an absent binding is pandas NaN, i.e. `JVal.null`. -/
def getCell (r : Row) (c : String) : JVal :=
  (getVal c r).getD .null

/-- Write a cell, replacing an existing binding for the column in place or
appending a new one. -/
def setCell (r : Row) (c : String) (v : JVal) : Row :=
  match r with
  | [] => [(c, v)]
  | (k, w) :: fs => if k = c then (c, v) :: fs else (k, w) :: setCell fs c v

/-- Remove the bindings of the given columns from a row. -/
def removeKeys (r : Row) (cs : List String) : Row :=
  r.filter (fun p => !(cs.contains p.1))

/-- Project a row onto the given columns, in that order (pandas column
selection `df[cols]`). -/
def restrictRow (r : Row) (cs : List String) : Row :=
  cs.map (fun c => (c, getCell r c))

/-- A pandas DataFrame: the column index plus the rows.  All reads are
guarded by membership in `cols`, mirroring pandas, which raises `KeyError`
on a column absent from the index. -/
structure DFrame where
  cols : List String
  rows : List Row

instance : DecidableEq DFrame := fun a b =>
  decidable_of_iff (a.cols = b.cols ∧ a.rows = b.rows)
    (by cases a; cases b; simp)

/-- Build a frame from a batch of raw records, as pandas does from a JSON
array: the column index is the union of the record keys in first-seen
order, and each record is one row. -/
def mkDF (records : List Row) : DFrame :=
  { cols := records.foldl
      (fun acc r => r.foldl
        (fun a p => if p.1 ∈ a then a else a ++ [p.1]) acc) [],
    rows := records }

/-- Column read, `df[c]`: the list of cells, or `KeyError` when the column
is absent from the index. -/
def getColumn (df : DFrame) (c : String) : Except Unit (List JVal) :=
  if c ∈ df.cols then .ok (df.rows.map (fun r => getCell r c))
  else .error ()

/-- Column write, `df[c] = vs` with `vs` a series of the same length:
overwrites the column in place or appends it at the end of the index. -/
def setColumn (df : DFrame) (c : String) (vs : List JVal) : DFrame :=
  { cols := if c ∈ df.cols then df.cols else df.cols ++ [c],
    rows := (df.rows.zip vs).map (fun p => setCell p.1 c p.2) }

/-- `df[dst] = df[src].apply(f)` for a fallible `f`: raises when the source
column is absent or when `f` raises on any cell. -/
def applyColumn (df : DFrame) (src dst : String)
    (f : JVal → Except Unit JVal) : Except Unit DFrame :=
  bindE (getColumn df src) (fun vs =>
    bindE (mapExc f vs) (fun ws => .ok (setColumn df dst ws)))

/-- `df[dst] = g(df[src])` for an infallible cell transform `g` (the
numeric and date coercions and the value replacements): raises only when
the source column is absent. -/
def deriveColumn (df : DFrame) (src dst : String)
    (f : JVal → JVal) : Except Unit DFrame :=
  bindE (getColumn df src) (fun vs => .ok (setColumn df dst (vs.map f)))

/-- `df = df.drop(columns=[c for c in cs if c in df.columns])`: drop the
listed columns, tolerating their absence. -/
def dropColumns (df : DFrame) (cs : List String) : DFrame :=
  { cols := df.cols.filter (fun c => !(cs.contains c)),
    rows := df.rows.map (fun r => removeKeys r cs) }

/-- `df.rename(columns=m)`: relabel columns; labels not mentioned in the
map are kept. -/
def renameOf (m : List (String × String)) (k : String) : String :=
  match m.find? (fun p => p.1 = k) with
  | some p => p.2
  | none => k

/-- Apply a column relabelling to the frame. -/
def renameColumns (df : DFrame) (m : List (String × String)) : DFrame :=
  { cols := df.cols.map (renameOf m),
    rows := df.rows.map (fun r => r.map (fun p => (renameOf m p.1, p.2))) }

/-- Number of non-null cells of a row counted over the given columns
(what `df.dropna(thresh=n)` counts). -/
def countNonNull (cols : List String) (r : Row) : Nat :=
  (cols.filter (fun c => getCell r c != JVal.null)).length

/-- The scan of `df.drop_duplicates(subset=c)`: keep each row whose cell
under `c` has not been seen before.  Pandas treats NaN values of the
subset column as equal to one another, so plain cell equality is the
faithful comparison here. -/
def dedupRows (c : String) (seen : List JVal) : List Row → List Row
  | [] => []
  | r :: rs =>
    if getCell r c ∈ seen then dedupRows c seen rs
    else r :: dedupRows c (getCell r c :: seen) rs

/-- Value of a digit string. -/
def digitsToNat (cs : List Char) : Nat :=
  cs.foldl (fun a c => a * 10 + (c.toNat - 48)) 0

/-- Decimal-string parsing as done by `pd.to_numeric(errors="coerce")`:
an optional sign, digits with an optional fractional part, and an optional
exponent; anything else coerces to NaN.  (Exotic spellings accepted by the
Python float constructor — embedded underscores, infinity and nan words,
surrounding whitespace — are not modelled; no claim involves them.) -/
def parseDec (s : String) : Option ℚ :=
  let cs := s.toList
  let sgnRest : Bool × List Char :=
    match cs with
    | '-' :: t => (true, t)
    | '+' :: t => (false, t)
    | t => (false, t)
  let mantExp := sgnRest.2.span (fun c => !(c == 'e' || c == 'E'))
  let ipFp := mantExp.1.span (fun c => !(c == '.'))
  let ip := ipFp.1
  let fp := match ipFp.2 with
    | [] => []
    | _ :: t => t
  let expDigits : Option (Bool × List Char) :=
    match mantExp.2 with
    | [] => some (false, [])
    | _ :: '-' :: t => some (true, t)
    | _ :: '+' :: t => some (false, t)
    | _ :: t => some (false, t)
  match expDigits with
  | some (esgn, ed) =>
    if (ip ++ fp).isEmpty || !((ip ++ fp).all Char.isDigit) then none
    else if !(ed.all Char.isDigit) || (!(mantExp.2.isEmpty) && ed.isEmpty) then none
    else if ipFp.2 ≠ [] && fp.isEmpty && ip.isEmpty then none
    else
      let mant : ℚ := (digitsToNat (ip ++ fp) : ℚ) / (10 : ℚ) ^ fp.length
      let e : ℚ := if esgn then 1 / (10 : ℚ) ^ digitsToNat ed
                   else (10 : ℚ) ^ digitsToNat ed
      let v := mant * e
      some (if sgnRest.1 then -v else v)
  | none => none

/-- One cell under `pd.to_numeric(errors="coerce")`: numbers and booleans
convert (True is 1), numeric strings parse, unparseable strings and
missing values become NaN; a list or dict cell raises `TypeError`
("Invalid object type") — the coerce mode only downgrades failed string
parsing, not invalid object types. -/
def toNumericCell : JVal → Except Unit JVal
  | .num q => .ok (.num q)
  | .bool b => .ok (.num (if b then 1 else 0))
  | .str s =>
    match parseDec s with
    | some q => .ok (.num q)
    | none => .ok .null
  | .inf b => .ok (.inf b)
  | .null => .ok .null
  | .arr _ => .error ()
  | .obj _ => .error ()

/-- Number of days of a month, Gregorian rules, as the datetime parser
validates them. -/
def daysInMonth (y m : Nat) : Nat :=
  if m = 2 then
    if (y % 4 = 0 && y % 100 ≠ 0) || y % 400 = 0 then 29 else 28
  else if m = 4 || m = 6 || m = 9 || m = 11 then 30
  else 31

/-- Recognize a valid calendar date string of the common ISO form used by
the TMDB payloads, year-month-day; impossible dates (month 13, February
30) are rejected, as `pd.to_datetime(errors="coerce")` turns them into
NaT. -/
def isIsoDate (s : String) : Bool :=
  match s.splitOn "-" with
  | [y, m, d] =>
    y.toList.all Char.isDigit && y.length = 4 &&
    m.toList.all Char.isDigit && !m.isEmpty && m.length ≤ 2 &&
    d.toList.all Char.isDigit && !d.isEmpty && d.length ≤ 2 &&
    1 ≤ digitsToNat m.toList && digitsToNat m.toList ≤ 12 &&
    1 ≤ digitsToNat d.toList &&
    digitsToNat d.toList ≤
      daysInMonth (digitsToNat y.toList) (digitsToNat m.toList)
  | _ => false

/-- One cell under `pd.to_datetime(errors="coerce")`: a parseable date
string stays (kept here as the string itself — only nullness matters
downstream), a number is read as an epoch timestamp and so also stays
non-null, anything else becomes NaT, i.e. null.  (Date formats other than
year-month-day are not modelled; no claim involves them.) -/
def toDateCell : JVal → JVal
  | .str s => if isIsoDate s then .str s else .null
  | .num q => .num q
  | _ => .null

/-- The sentinel-zero replacement `.replace(0, np.nan)` on one cell. -/
def zeroToNull (v : JVal) : JVal :=
  if v = .num 0 then .null else v

/-- One cell of the unit conversion `df[c] / 1_000_000`.  At the point
where clean.py applies it the column has just been coerced numeric, so
cells are numbers or NaN; NaN propagates and an infinity stays infinite. -/
def musdCell : JVal → JVal
  | .num q => .num (q / 1000000)
  | .inf b => .inf b
  | _ => .null

/-- The text-placeholder replacement `.replace(sentinels, np.nan)` on one
cell: a string equal to one of the sentinels becomes NaN. -/
def cleanText (sentinels : List String) (v : JVal) : JVal :=
  match v with
  | .str s => if sentinels.contains s then .null else v
  | _ => v

/-- Columns dropped by step 1 of clean.py `run`. -/
def irrelevantCols : List String :=
  ["adult", "imdb_id", "original_title", "video", "homepage"]

/-- Raw nested-JSON columns dropped by step 3 of clean.py `run`. -/
def jsonCols : List String :=
  ["belongs_to_collection", "genres", "production_countries",
   "production_companies", "spoken_languages", "credits"]

/-- The column relabelling of step 4 of clean.py `run`. -/
def renameMap : List (String × String) :=
  [("genre_names", "genres"), ("language_codes", "spoken_languages"),
   ("country_names", "production_countries"),
   ("company_names", "production_companies")]

/-- The canonical output column order of step 10 of clean.py `run`. -/
def finalColumnOrder : List String :=
  ["id", "title", "tagline", "release_date", "genres", "collection_name",
   "original_language", "budget_musd", "revenue_musd",
   "production_companies", "production_countries",
   "vote_count", "vote_average", "popularity", "runtime",
   "overview", "spoken_languages", "poster_path",
   "cast", "cast_size", "director", "crew_size"]

/-- Step 2 of clean.py `run`: extract the nested JSON fields into new
columns, reading each source column unconditionally (pandas raises
`KeyError` when one is absent) and applying the extractor to every cell. -/
def extractStage (df : DFrame) : Except Unit DFrame :=
  bindE (applyColumn df "belongs_to_collection" "collection_name" extract_collection_name) (fun d1 =>
  bindE (applyColumn d1 "genres" "genre_names" extract_genres) (fun d2 =>
  bindE (applyColumn d2 "spoken_languages" "language_codes" extract_spoken_languages) (fun d3 =>
  bindE (applyColumn d3 "production_countries" "country_names" extract_production_countries) (fun d4 =>
  bindE (applyColumn d4 "production_companies" "company_names" extract_production_companies) (fun d5 =>
  bindE (applyColumn d5 "credits" "cast" extract_cast) (fun d6 =>
  bindE (applyColumn d6 "credits" "cast_size" extract_cast_size) (fun d7 =>
  bindE (applyColumn d7 "credits" "crew_size" extract_crew_size) (fun d8 =>
  applyColumn d8 "credits" "director" extract_director))))))))

/-- Step 5 of clean.py `run`: coerce the seven numeric columns (each a
fallible `pd.to_numeric`, which raises on list/dict cells), then the
release date. -/
def numericStage (df : DFrame) : Except Unit DFrame :=
  bindE (applyColumn df "budget" "budget" toNumericCell) (fun d1 =>
  bindE (applyColumn d1 "revenue" "revenue" toNumericCell) (fun d2 =>
  bindE (applyColumn d2 "id" "id" toNumericCell) (fun d3 =>
  bindE (applyColumn d3 "popularity" "popularity" toNumericCell) (fun d4 =>
  bindE (applyColumn d4 "vote_count" "vote_count" toNumericCell) (fun d5 =>
  bindE (applyColumn d5 "vote_average" "vote_average" toNumericCell) (fun d6 =>
  bindE (applyColumn d6 "runtime" "runtime" toNumericCell) (fun d7 =>
  deriveColumn d7 "release_date" "release_date" toDateCell)))))))

/-- Step 6 of clean.py `run`, first half: replace the sentinel zero with
NaN in budget, revenue and runtime. -/
def zeroStage (df : DFrame) : Except Unit DFrame :=
  bindE (deriveColumn df "budget" "budget" zeroToNull) (fun d1 =>
  bindE (deriveColumn d1 "revenue" "revenue" zeroToNull) (fun d2 =>
  deriveColumn d2 "runtime" "runtime" zeroToNull))

/-- Step 6 of clean.py `run`, second half: the unit conversions to
millions of dollars. -/
def musdStage (df : DFrame) : Except Unit DFrame :=
  bindE (deriveColumn df "budget" "budget_musd" musdCell) (fun d1 =>
  deriveColumn d1 "revenue" "revenue_musd" musdCell)

/-- The vote-suppression assignment
`df.loc[df[vote_count] == 0, vote_average] = np.nan`: reading the mask
column raises when it is absent; the masked assignment itself would create
the target column if needed and nulls the target wherever the vote count
is exactly zero. -/
def voteFixStage (df : DFrame) : Except Unit DFrame :=
  if "vote_count" ∈ df.cols then
    .ok { cols := if "vote_average" ∈ df.cols then df.cols
                  else df.cols ++ ["vote_average"],
          rows := df.rows.map (fun r =>
            if getCell r "vote_count" = JVal.num 0 then
              setCell r "vote_average" JVal.null
            else r) }
  else .error ()

/-- The text-placeholder cleanup of overview and tagline. -/
def textStage (df : DFrame) : Except Unit DFrame :=
  bindE (deriveColumn df "overview" "overview"
      (cleanText ["", "No overview found.", "No Overview"])) (fun d1 =>
  deriveColumn d1 "tagline" "tagline" (cleanText ["", "No tagline."]))

/-- Steps 1 through 6 of clean.py `run`: everything before deduplication.
The order is the source order: drop irrelevant columns, extract the nested
fields, drop the raw JSON columns, rename the extracted columns, coerce
numerics and the date, null the sentinel zeros, convert to millions,
suppress zero-vote averages, clean the placeholder text. -/
def preDedup (df : DFrame) : Except Unit DFrame :=
  bindE (extractStage (dropColumns df irrelevantCols)) (fun d1 =>
  bindE (numericStage (renameColumns (dropColumns d1 jsonCols) renameMap)) (fun d4 =>
  bindE (zeroStage d4) (fun d5 =>
  bindE (musdStage d5) (fun d6 =>
  bindE (voteFixStage d6) (fun d7 =>
  textStage d7)))))

/-- `df.drop_duplicates(subset="id")`: keep the first row of each id value
in batch order. -/
def dropDuplicatesId (df : DFrame) : DFrame :=
  { cols := df.cols, rows := dedupRows "id" [] df.rows }

/-- `df.dropna(subset=["id", "title"])`: raises `KeyError` when either
column is absent from the index; otherwise keeps the rows where both are
non-null. -/
def dropnaIdTitle (df : DFrame) : Except Unit DFrame :=
  if "id" ∈ df.cols ∧ "title" ∈ df.cols then
    .ok { cols := df.cols,
          rows := df.rows.filter (fun r =>
            getCell r "id" != JVal.null && getCell r "title" != JVal.null) }
  else .error ()

/-- `df.dropna(thresh=n)`: keep the rows having at least `n` non-null
cells across the current columns. -/
def dropnaThresh (n : Nat) (df : DFrame) : DFrame :=
  { cols := df.cols,
    rows := df.rows.filter (fun r => n ≤ countNonNull df.cols r) }

/-- Step 9 of clean.py `run`: when a status column exists, keep only the
rows whose status is exactly "Released" and drop the column; when it does
not, do nothing at all. -/
def statusFilter (df : DFrame) : DFrame :=
  if "status" ∈ df.cols then
    { cols := df.cols.filter (fun c => !(c == "status")),
      rows := (df.rows.filter (fun r =>
        getCell r "status" == JVal.str "Released")).map
          (fun r => removeKeys r ["status"]) }
  else df

/-- Step 10 of clean.py `run`: project onto the canonical column order,
silently omitting canonical columns absent from the frame. -/
def reorderColumns (df : DFrame) : DFrame :=
  let cs := finalColumnOrder.filter (fun c => c ∈ df.cols)
  { cols := cs, rows := df.rows.map (fun r => restrictRow r cs) }

/-- clean.py `run`: the full cleaning pipeline.  After the pre-dedup
transformations: drop duplicate ids keeping the first occurrence, drop the
rows with a null id or title, keep the rows with at least ten non-null
cells, keep only released movies, and project onto the canonical column
order.  The trailing index reset only renumbers rows and needs no model on
a list representation. -/
def run (df : DFrame) : Except Unit DFrame :=
  bindE (preDedup df) (fun m =>
  bindE (dropnaIdTitle (dropDuplicatesId m)) (fun d2 =>
  .ok (reorderColumns (statusFilter (dropnaThresh 10 d2)))))

/-- Elementwise subtraction of two numeric-or-missing series cells, as
pandas evaluates `df[a] - df[b]` on float columns: NaN propagates;
infinities behave as in IEEE; non-numeric cells would raise a
`TypeError`. -/
def pySub (a b : JVal) : Except Unit JVal :=
  match a, b with
  | .num x, .num y => .ok (.num (x - y))
  | .null, .num _ => .ok .null
  | .num _, .null => .ok .null
  | .null, .null => .ok .null
  | .inf s, .num _ => .ok (.inf s)
  | .num _, .inf s => .ok (.inf (!s))
  | .inf s, .inf t => .ok (if s = t then .null else .inf s)
  | .inf _, .null => .ok .null
  | .null, .inf _ => .ok .null
  | _, _ => .error ()

/-- Elementwise true division of two numeric-or-missing series cells, as
pandas evaluates `df[a] / df[b]` on float columns: NaN propagates; a
nonzero number divided by zero is a signed infinity and zero by zero is
NaN; non-numeric cells would raise a `TypeError`. -/
def pyDiv (a b : JVal) : Except Unit JVal :=
  match a, b with
  | .num x, .num y =>
    if y = 0 then
      if x = 0 then .ok .null else .ok (.inf (decide (0 < x)))
    else .ok (.num (x / y))
  | .null, .num _ => .ok .null
  | .num _, .null => .ok .null
  | .null, .null => .ok .null
  | .inf s, .num y => .ok (.inf (s = decide (0 ≤ y)))
  | .num _, .inf _ => .ok (.num 0)
  | .inf _, .inf _ => .ok .null
  | .inf _, .null => .ok .null
  | .null, .inf _ => .ok .null
  | _, _ => .error ()

/-- analysis.py `add_kpis`: add `profit_musd = revenue_musd - budget_musd`
and `roi = revenue_musd / budget_musd` to a copy of the frame.  Reading
either operand column raises when it is absent. -/
def add_kpis (df : DFrame) : Except Unit DFrame :=
  if "revenue_musd" ∈ df.cols ∧ "budget_musd" ∈ df.cols then
    bindE (mapExc (fun r =>
      bindE (pySub (getCell r "revenue_musd") (getCell r "budget_musd")) (fun p =>
      bindE (pyDiv (getCell r "revenue_musd") (getCell r "budget_musd")) (fun q =>
      Except.ok (setCell (setCell r "profit_musd" p) "roi" q)))) df.rows)
      (fun rows2 =>
        let cols1 := if "profit_musd" ∈ df.cols then df.cols
                     else df.cols ++ ["profit_musd"]
        .ok { cols := if "roi" ∈ cols1 then cols1 else cols1 ++ ["roi"],
              rows := rows2 })
  else .error ()

/-- A well-shaped element of a nested name list: a map whose `name` value,
when present, is a string (so that the subscript and the join succeed). -/
def wsEntry : JVal → Bool
  | .obj fs =>
    match getVal "name" fs with
    | some (.str _) => true
    | some _ => false
    | none => true
  | _ => false

/-- A well-shaped cell for a list extractor: when it is a list at all, its
elements are well-shaped maps.  Non-list cells need no condition — the
extractors map them to null. -/
def wsNamed : JVal → Bool
  | .arr xs => xs.all wsEntry
  | _ => true

/-- A crew element safe for the director scan: a map (`person.get` exists
only on maps; the job and name values may have any type). -/
def wsCrewEntry : JVal → Bool
  | .obj _ => true
  | _ => false

/-- A well-shaped credits cell: if it is a map, its `cast` value (when the
key is present) is a list of well-shaped maps and its `crew` value (when
present) is a list of maps.  A non-map credits cell needs no condition. -/
def wsCredits : JVal → Bool
  | .obj fs =>
    (match getVal "cast" fs with
     | some (.arr xs) => xs.all wsEntry
     | some _ => false
     | none => true) &&
    (match getVal "crew" fs with
     | some (.arr ys) => ys.all wsCrewEntry
     | some _ => false
     | none => true)
  | _ => true

/-- A raw record whose nested substructures are all well-shaped in the
sense of `wsNamed` and `wsCredits`. -/
def wsRow (r : Row) : Bool :=
  wsNamed (getCell r "genres") && wsNamed (getCell r "spoken_languages") &&
  wsNamed (getCell r "production_countries") &&
  wsNamed (getCell r "production_companies") &&
  wsCredits (getCell r "credits")

/-- A cell `pd.to_numeric(errors="coerce")` accepts without raising:
anything but a list or a dict. -/
def wsNumCell : JVal → Bool
  | .arr _ => false
  | .obj _ => false
  | _ => true

/-- A raw record whose seven numeric columns hold scalar cells, so that
the numeric coercions cannot raise. -/
def wsNumRow (r : Row) : Bool :=
  wsNumCell (getCell r "budget") && wsNumCell (getCell r "revenue") &&
  wsNumCell (getCell r "id") && wsNumCell (getCell r "popularity") &&
  wsNumCell (getCell r "vote_count") && wsNumCell (getCell r "vote_average") &&
  wsNumCell (getCell r "runtime")

/-- The columns clean.py `run` reads unconditionally: any of them missing
from the schema raises `KeyError`. -/
def requiredCols : List String :=
  ["belongs_to_collection", "genres", "spoken_languages",
   "production_countries", "production_companies", "credits",
   "budget", "revenue", "id", "popularity", "vote_count", "vote_average",
   "runtime", "release_date", "overview", "tagline", "title"]

/-- Modelled from the wording of the spec, for comparison with the code:
the string `name` values of the elements that carry a `name` key. -/
def specNames (xs : List JVal) : List String :=
  xs.filterMap (fun v =>
    match v with
    | .obj fs =>
      match getVal "name" fs with
      | some (.str s) => some s
      | _ => none
    | _ => none)

/-- A list-extractor input that is a non-empty Python list. -/
def isNonEmptyArr : JVal → Bool
  | .arr (_ :: _) => true
  | _ => false

/-- A Python dict test, `isinstance(v, dict)`. -/
def isObjB : JVal → Bool
  | .obj _ => true
  | _ => false

/-- The cells of one column of a frame. -/
def colCells (df : DFrame) (c : String) : List JVal :=
  df.rows.map (fun r => getCell r c)

/-- The rows of a successful pipeline output (empty when `run` raises). -/
def runRows (df : DFrame) : List Row :=
  match run df with
  | .ok o => o.rows
  | .error _ => []

/-- The column index of a successful pipeline output. -/
def runCols (df : DFrame) : List String :=
  match run df with
  | .ok o => o.cols
  | .error _ => []

/-- The rows of the pre-dedup intermediate frame. -/
def preDedupRows (df : DFrame) : List Row :=
  match preDedup df with
  | .ok m => m.rows
  | .error _ => []

/-- The column index of the pre-dedup intermediate frame, i.e. the full
pre-reorder column set over which the completeness threshold counts. -/
def preDedupCols (df : DFrame) : List String :=
  match preDedup df with
  | .ok m => m.cols
  | .error _ => []

/-- The frame right after the completeness threshold (step 8 of clean.py
`run`), before the status filter and the reorder. -/
def threshStage (df : DFrame) : DFrame :=
  match preDedup df with
  | .ok m =>
    match dropnaIdTitle (dropDuplicatesId m) with
    | .ok d2 => dropnaThresh 10 d2
    | .error _ => { cols := [], rows := [] }
  | .error _ => { cols := [], rows := [] }

/-- The rows of a successful `add_kpis` output (empty when it raises). -/
def kpiRows (df : DFrame) : List Row :=
  match add_kpis df with
  | .ok o => o.rows
  | .error _ => []

/-- An element that is a map without a `name` key (the all-skipped edge
case of the list extractors). -/
def noNameEntry : JVal → Bool
  | .obj fs => (getVal "name" fs).isNone
  | _ => false

/-- One column of a successful pipeline output (empty when `run` raises). -/
def runCol (df : DFrame) (c : String) : List JVal :=
  match run df with
  | .ok o => colCells o c
  | .error _ => []

/-- Whether, in the pre-dedup intermediate of a batch, the first row
carrying the id value `v` has a null title.  This is the situation of the
dedup-before-dropna interaction claim. -/
def firstTitleNull (df : DFrame) (v : JVal) : Bool :=
  match preDedup df with
  | .ok m =>
    match m.rows.find? (fun x => getCell x "id" == v) with
    | some r0 => getCell r0 "title" == JVal.null
    | none => false
  | .error _ => false

/-- A complete, well-shaped raw record: released, all required fields
present, sentinel-zero budget and revenue. -/
def recFull : Row :=
  [("id", .num 1), ("title", .str "First"), ("status", .str "Released"),
   ("budget", .num 0), ("revenue", .num 0), ("popularity", .num 3),
   ("vote_count", .num 20), ("vote_average", .num 6), ("runtime", .num 90),
   ("release_date", .str "2020-01-01"), ("overview", .str "An overview."),
   ("tagline", .str "A tagline."), ("belongs_to_collection", .null),
   ("genres", .arr [.obj [("name", .str "Drama")]]),
   ("spoken_languages", .arr [.obj [("name", .str "English")]]),
   ("production_countries", .null), ("production_companies", .null),
   ("credits", .obj
     [("cast", .arr [.obj [("name", .str "A")], .obj [("name", .str "B")]]),
      ("crew", .arr [.obj [("job", .str "Director"), ("name", .str "C")]])])]

/-- Two raw records with the same id and different titles, in batch order. -/
def batchDup : DFrame :=
  mkDF [recFull, setCell recFull "title" (.str "Second")]

/-- A batch whose single record resolves to exactly nine non-null fields
(id, title, popularity, vote count, vote average, runtime, release date,
overview, and the always-present director default). -/
def recNine : Row :=
  [("id", .num 1), ("title", .str "T"), ("budget", .null), ("revenue", .null),
   ("popularity", .num 1), ("vote_count", .num 5), ("vote_average", .num 7),
   ("runtime", .num 90), ("release_date", .str "2020-01-01"),
   ("overview", .str "x"), ("tagline", .null),
   ("belongs_to_collection", .null), ("genres", .null),
   ("spoken_languages", .null), ("production_countries", .null),
   ("production_companies", .null), ("credits", .null)]

/-- The nine-non-null-field batch. -/
def batchNine : DFrame := mkDF [recNine]

/-- A complete record whose status is not "Released". -/
def batchPost : DFrame :=
  mkDF [setCell recFull "status" (.str "Post Production")]

/-- A complete batch with no status column at all. -/
def batchNoStatus : DFrame := mkDF [removeKeys recFull ["status"]]

/-- A batch where the first record of id 1 has a null title and a later
record with the same id has a non-null title. -/
def batchC10 : DFrame :=
  mkDF [setCell recFull "title" JVal.null,
        setCell recFull "title" (.str "Second")]

/-- A batch whose schema has id and title but nothing else. -/
def batchIdTitleOnly : DFrame :=
  mkDF [[("id", .num 1), ("title", .str "T")]]

/-- A one-row frame without a status column. -/
def dfNoStatusCol : DFrame :=
  { cols := ["id"], rows := [[("id", .num 1)]] }

/-- A one-row released frame with a status column. -/
def dfWithStatusCol : DFrame :=
  { cols := ["id", "status"],
    rows := [[("id", .num 1), ("status", .str "Released")]] }

/-- A one-row frame with a zero budget and positive revenue, fed to the
KPI step. -/
def kpiZeroBudget : DFrame :=
  { cols := ["revenue_musd", "budget_musd"],
    rows := [[("revenue_musd", .num 5), ("budget_musd", .num 0)]] }

/-- A twelve-entry cast list (billing order), used to exercise the cap. -/
def castTwelve : List JVal :=
  [.obj [("name", .str "A1")], .obj [("name", .str "A2")],
   .obj [("name", .str "A3")], .obj [("name", .str "A4")],
   .obj [("name", .str "A5")], .obj [("name", .str "A6")],
   .obj [("name", .str "A7")], .obj [("name", .str "A8")],
   .obj [("name", .str "A9")], .obj [("name", .str "A10")],
   .obj [("name", .str "A11")], .obj [("name", .str "A12")]]

theorem bindE_okE (a : α) (f : α → Except Unit β) : bindE (.ok a) f = f a := rfl

theorem bindE_errorE (e : Unit) (f : α → Except Unit β) :
    bindE (.error e) f = .error e := rfl

theorem pyMem_obj (k : String) (fs : List (String × JVal)) :
    pyMem k (.obj fs) = .ok (getVal k fs).isSome := rfl

theorem pySubscr_obj (k : String) (fs : List (String × JVal)) (v : JVal)
    (hn : getVal k fs = some v) : pySubscr k (.obj fs) = .ok v := by
  simp [pySubscr, hn]

theorem specNames_cons_none (fs : List (String × JVal)) (xs : List JVal)
    (hn : getVal "name" fs = none) :
    specNames (.obj fs :: xs) = specNames xs := by
  simp [specNames, List.filterMap_cons, hn]

theorem specNames_cons_str (fs : List (String × JVal)) (xs : List JVal)
    (s : String) (hn : getVal "name" fs = some (.str s)) :
    specNames (.obj fs :: xs) = s :: specNames xs := by
  simp [specNames, List.filterMap_cons, hn]

theorem compNames_ws (xs : List JVal) (h : xs.all wsEntry = true) :
    compNames xs = .ok ((specNames xs).map JVal.str) := by
  induction xs with
  | nil => rfl
  | cons x xs ih =>
    simp only [List.all_cons, Bool.and_eq_true] at h
    obtain ⟨hx, hxs⟩ := h
    match x, hx with
    | .obj fs, hx =>
      have hxm : (match getVal "name" fs with
          | some (JVal.str _) => true
          | some _ => false
          | none => true) = true := hx
      cases hn : getVal "name" fs with
      | none =>
        rw [show compNames (JVal.obj fs :: xs) =
          bindE (pyMem "name" (JVal.obj fs)) (fun b =>
            if b then
              bindE (pySubscr "name" (JVal.obj fs)) (fun v =>
                bindE (compNames xs) (fun rest => .ok (v :: rest)))
            else compNames xs) from rfl]
        rw [pyMem_obj, hn, specNames_cons_none fs xs hn]
        simpa [bindE_okE] using ih hxs
      | some w =>
        rw [hn] at hxm
        match w, hxm with
        | .str s, _ =>
          rw [show compNames (JVal.obj fs :: xs) =
            bindE (pyMem "name" (JVal.obj fs)) (fun b =>
              if b then
                bindE (pySubscr "name" (JVal.obj fs)) (fun v =>
                  bindE (compNames xs) (fun rest => .ok (v :: rest)))
              else compNames xs) from rfl]
          rw [pyMem_obj, hn, specNames_cons_str fs xs s hn]
          rw [bindE_okE]
          simp only [Option.isSome_some, if_true]
          rw [pySubscr_obj "name" fs (.str s) hn, bindE_okE, ih hxs, bindE_okE]
          simp

theorem pyJoinBar_strs (ss : List String) :
    pyJoinBar (ss.map JVal.str) = .ok (.str (String.intercalate "|" ss)) := by
  have h : mapExc (fun v =>
      match v with
      | JVal.str s => Except.ok s
      | _ => Except.error ()) (ss.map JVal.str) = .ok ss := by
    induction ss with
    | nil => rfl
    | cons s ss ih =>
      simp only [List.map_cons, mapExc, ih, bindE_okE]
  simp only [pyJoinBar, h, bindE_okE]

theorem extractNameList_ws (xs : List JVal) (hne : xs ≠ [])
    (h : xs.all wsEntry = true) :
    extractNameList (.arr xs) =
      .ok (.str (String.intercalate "|" (specNames xs))) := by
  rw [show extractNameList (.arr xs) =
    (if xs.isEmpty then .ok .null else bindE (compNames xs) pyJoinBar) from rfl]
  rw [if_neg (by simpa [List.isEmpty_iff] using hne)]
  rw [compNames_ws _ h, bindE_okE]
  exact pyJoinBar_strs (specNames xs)

theorem extractNameList_null (v : JVal) (h : isNonEmptyArr v = false) :
    extractNameList v = .ok .null := by
  match v with
  | .arr [] => rfl
  | .arr (_ :: _) => simp [isNonEmptyArr] at h
  | .null | .bool _ | .num _ | .str _ | .inf _ | .obj _ => rfl

theorem specNames_noName (xs : List JVal) (h : xs.all noNameEntry = true) :
    specNames xs = [] ∧ xs.all wsEntry = true := by
  induction xs with
  | nil => simp [specNames]
  | cons x xs ih =>
    simp only [List.all_cons, Bool.and_eq_true] at h ⊢
    obtain ⟨hx, hxs⟩ := h
    obtain ⟨ih1, ih2⟩ := ih hxs
    match x, hx with
    | .obj fs, hx =>
      unfold noNameEntry at hx
      rw [Option.isNone_iff_eq_none] at hx
      constructor
      · simpa [specNames, hx] using ih1
      · exact ⟨by simp [wsEntry, hx], ih2⟩

theorem directorScan_ok (ys : List JVal) (h : ys.all wsCrewEntry = true) :
    (directorScan ys).isOk = true := by
  induction ys with
  | nil => rfl
  | cons y ys ih =>
    simp only [List.all_cons, Bool.and_eq_true] at h
    obtain ⟨hy, hys⟩ := h
    match y, hy with
    | .obj fs, _ =>
      rw [show directorScan (JVal.obj fs :: ys) =
        bindE (pyGetD (.obj fs) "job" .null) (fun j =>
          if j = .str "Director" then
            pyGetD (.obj fs) "name" (.str "Unknown")
          else directorScan ys) from rfl]
      rw [show pyGetD (JVal.obj fs) "job" .null =
        .ok ((getVal "job" fs).getD .null) from rfl]
      rw [bindE_okE]
      split
      · rfl
      · exact ih hys

theorem extract_collection_name_ok (v : JVal) :
    (extract_collection_name v).isOk = true := by
  match v with
  | .obj fs =>
    rw [show extract_collection_name (.obj fs) =
      (getVal "name" fs).elim (.ok .null) (fun v => .ok v) from rfl]
    cases getVal "name" fs <;> rfl
  | .null | .bool _ | .num _ | .str _ | .inf _ | .arr _ => rfl

theorem extractNameList_ok (v : JVal) (h : wsNamed v = true) :
    (extractNameList v).isOk = true := by
  match v with
  | .arr [] => rfl
  | .arr (x :: xs) =>
    rw [extractNameList_ws (x :: xs) (by simp) (by simpa [wsNamed] using h)]
    rfl
  | .null | .bool _ | .num _ | .str _ | .inf _ | .obj _ => rfl

theorem wsCredits_parts (fs : List (String × JVal))
    (h : wsCredits (.obj fs) = true) :
    (match getVal "cast" fs with
     | some (.arr xs) => xs.all wsEntry
     | some _ => false
     | none => true) = true ∧
    (match getVal "crew" fs with
     | some (.arr ys) => ys.all wsCrewEntry
     | some _ => false
     | none => true) = true := by
  have h2 : ((match getVal "cast" fs with
     | some (.arr xs) => xs.all wsEntry
     | some _ => false
     | none => true) &&
    (match getVal "crew" fs with
     | some (.arr ys) => ys.all wsCrewEntry
     | some _ => false
     | none => true)) = true := h
  rwa [Bool.and_eq_true] at h2

theorem extract_cast_ok (v : JVal) (h : wsCredits v = true) :
    (extract_cast v).isOk = true := by
  match v with
  | .null | .bool _ | .num _ | .str _ | .inf _ | .arr _ => rfl
  | .obj fs =>
    obtain ⟨hc, _⟩ := wsCredits_parts fs h
    rw [show extract_cast (.obj fs) =
      (getVal "cast" fs).elim (.ok .null) (fun cv =>
        bindE (pySliceTake 5 cv) (fun sliced =>
          bindE (pyIter sliced) (fun elems =>
            bindE (compNames elems) pyJoinBar))) from rfl]
    cases hcv : getVal "cast" fs with
    | none => rfl
    | some cv =>
      rw [hcv] at hc
      match cv, hc with
      | .arr xs, hc =>
        have hall : (xs.take 5).all wsEntry = true := by
          rw [List.all_eq_true] at hc ⊢
          exact fun x hx => hc x (List.mem_of_mem_take hx)
        show (bindE (pySliceTake 5 (JVal.arr xs)) (fun sliced =>
          bindE (pyIter sliced) (fun elems =>
            bindE (compNames elems) pyJoinBar))).isOk = true
        rw [show pySliceTake 5 (JVal.arr xs) = .ok (.arr (xs.take 5)) from rfl]
        rw [bindE_okE]
        rw [show pyIter (JVal.arr (xs.take 5)) = .ok (xs.take 5) from rfl]
        rw [bindE_okE, compNames_ws _ hall, bindE_okE, pyJoinBar_strs]
        rfl

theorem extract_cast_size_ok (v : JVal) (h : wsCredits v = true) :
    (extract_cast_size v).isOk = true := by
  match v with
  | .null | .bool _ | .num _ | .str _ | .inf _ | .arr _ => rfl
  | .obj fs =>
    obtain ⟨hc, _⟩ := wsCredits_parts fs h
    rw [show extract_cast_size (.obj fs) =
      (getVal "cast" fs).elim (.ok .null) (fun cv =>
        bindE (pyLen cv) (fun n => .ok (.num n))) from rfl]
    cases hcv : getVal "cast" fs with
    | none => rfl
    | some cv =>
      rw [hcv] at hc
      match cv, hc with
      | .arr xs, _ => rfl

theorem extract_crew_size_ok (v : JVal) (h : wsCredits v = true) :
    (extract_crew_size v).isOk = true := by
  match v with
  | .null | .bool _ | .num _ | .str _ | .inf _ | .arr _ => rfl
  | .obj fs =>
    obtain ⟨_, hw⟩ := wsCredits_parts fs h
    rw [show extract_crew_size (.obj fs) =
      (getVal "crew" fs).elim (.ok .null) (fun cv =>
        bindE (pyLen cv) (fun n => .ok (.num n))) from rfl]
    cases hcv : getVal "crew" fs with
    | none => rfl
    | some cv =>
      rw [hcv] at hw
      match cv, hw with
      | .arr ys, _ => rfl

theorem extract_director_ok (v : JVal) (h : wsCredits v = true) :
    (extract_director v).isOk = true := by
  match v with
  | .null | .bool _ | .num _ | .str _ | .inf _ | .arr _ => rfl
  | .obj fs =>
    obtain ⟨_, hw⟩ := wsCredits_parts fs h
    rw [show extract_director (.obj fs) =
      (getVal "crew" fs).elim (.ok (.str "Unknown")) (fun cv =>
        bindE (pyIter cv) directorScan) from rfl]
    cases hcv : getVal "crew" fs with
    | none => rfl
    | some cv =>
      rw [hcv] at hw
      match cv, hw with
      | .arr ys, hw =>
        show (bindE (pyIter (JVal.arr ys)) directorScan).isOk = true
        rw [show pyIter (JVal.arr ys) = .ok ys from rfl, bindE_okE]
        exact directorScan_ok ys hw

/-- C3 counterexample input: a genres list whose element is a number; the
Python membership test `"name" in 1` raises `TypeError`. -/
theorem C3_counterexample :
    extract_genres (.arr [.num 1]) = .error () := by decide

/-- C3 (amended): the nine extractors are total on well-shaped
substructures.  `extract_collection_name` never raises on any input; the
four list extractors never raise when a list input consists of maps whose
`name` values are strings (`wsNamed`); the four credits extractors never
raise when the cast value, if present, is such a list and the crew value,
if present, is a list of maps (`wsCredits`).  Totality on arbitrary input
fails: some malformed inputs raise `TypeError` — a number element makes
the membership test raise, as `C3_counterexample` shows — so the claimed
unconditional totality does not hold. -/
theorem C3_theorem (v : JVal) :
    ((extract_collection_name v).isOk = true) ∧
    (wsNamed v = true →
      (extract_genres v).isOk = true ∧
      (extract_spoken_languages v).isOk = true ∧
      (extract_production_countries v).isOk = true ∧
      (extract_production_companies v).isOk = true) ∧
    (wsCredits v = true →
      (extract_cast v).isOk = true ∧
      (extract_cast_size v).isOk = true ∧
      (extract_crew_size v).isOk = true ∧
      (extract_director v).isOk = true) := by
  refine ⟨extract_collection_name_ok v, ?_, ?_⟩
  · intro h
    have hg := extractNameList_ok v h
    exact ⟨hg, hg, hg, hg⟩
  · intro h
    exact ⟨extract_cast_ok v h, extract_cast_size_ok v h,
      extract_crew_size_ok v h, extract_director_ok v h⟩

/-- C3 witness: the amended totality at a concrete well-shaped credits
value and a concrete well-shaped genres list. -/
theorem C3_witness :
    (extract_genres (.arr [.obj [("name", .str "Drama")]])).isOk = true ∧
    (extract_cast (.obj [("cast", .arr []), ("crew", .arr [])])).isOk = true ∧
    (extract_director (.obj [("cast", .arr []), ("crew", .arr [])])).isOk = true :=
  ⟨((C3_theorem (.arr [.obj [("name", .str "Drama")]])).2.1 (by decide)).1,
   ((C3_theorem (.obj [("cast", .arr []), ("crew", .arr [])])).2.2 (by decide)).1,
   ((C3_theorem (.obj [("cast", .arr []), ("crew", .arr [])])).2.2 (by decide)).2.2.2⟩

/-- C4 counterexample: a credits map whose cast list is present but empty
yields the empty string, not null, contradicting "null when the source
cast list is absent or empty". -/
theorem C4_counterexample :
    extract_cast (.obj [("cast", .arr [])]) = .ok (.str "") ∧
    JVal.str "" ≠ JVal.null := by
  constructor
  · decide
  · decide

/-- C4 (amended): on a credits map whose cast value is a list of
well-shaped maps, the cast string is the pipe-join of the name values of
the first five entries in source order (entries lacking a name skipped),
and `cast_size` is the full uncapped list length; when the cast list is
present but EMPTY the cast string is the empty string (see
`C4_counterexample`), not null as claimed; cast is null exactly when the
cast key is absent or the credits value is not a map, and `cast_size` and
`crew_size` are null exactly when the respective key is absent or the
credits value is not a map. -/
theorem C4_theorem :
    (∀ fs xs, getVal "cast" fs = some (.arr xs) → xs.all wsEntry = true →
      extract_cast (.obj fs) =
        .ok (.str (String.intercalate "|" (specNames (xs.take 5)))) ∧
      extract_cast_size (.obj fs) = .ok (.num (xs.length : ℚ))) ∧
    (∀ fs, getVal "cast" fs = none →
      extract_cast (.obj fs) = .ok .null ∧
      extract_cast_size (.obj fs) = .ok .null) ∧
    (∀ w, isObjB w = false →
      extract_cast w = .ok .null ∧ extract_cast_size w = .ok .null ∧
      extract_crew_size w = .ok .null) ∧
    (∀ fs ys, getVal "crew" fs = some (.arr ys) →
      extract_crew_size (.obj fs) = .ok (.num (ys.length : ℚ))) ∧
    (∀ fs, getVal "crew" fs = none →
      extract_crew_size (.obj fs) = .ok .null) := by
  refine ⟨?_, ?_, ?_, ?_, ?_⟩
  · intro fs xs hcv hws
    constructor
    · rw [show extract_cast (.obj fs) =
        (getVal "cast" fs).elim (.ok .null) (fun cv =>
          bindE (pySliceTake 5 cv) (fun sliced =>
            bindE (pyIter sliced) (fun elems =>
              bindE (compNames elems) pyJoinBar))) from rfl, hcv]
      have hall : (xs.take 5).all wsEntry = true := by
        rw [List.all_eq_true] at hws ⊢
        exact fun x hx => hws x (List.mem_of_mem_take hx)
      show (bindE (pySliceTake 5 (JVal.arr xs)) (fun sliced =>
        bindE (pyIter sliced) (fun elems =>
          bindE (compNames elems) pyJoinBar))) =
        .ok (.str (String.intercalate "|" (specNames (xs.take 5))))
      rw [show pySliceTake 5 (JVal.arr xs) = .ok (.arr (xs.take 5)) from rfl]
      rw [bindE_okE]
      rw [show pyIter (JVal.arr (xs.take 5)) = .ok (xs.take 5) from rfl]
      rw [bindE_okE, compNames_ws _ hall, bindE_okE]
      exact pyJoinBar_strs (specNames (xs.take 5))
    · rw [show extract_cast_size (.obj fs) =
        (getVal "cast" fs).elim (.ok .null) (fun cv =>
          bindE (pyLen cv) (fun n => .ok (.num n))) from rfl, hcv]
      rfl
  · intro fs hcv
    constructor
    · rw [show extract_cast (.obj fs) =
        (getVal "cast" fs).elim (.ok .null) (fun cv =>
          bindE (pySliceTake 5 cv) (fun sliced =>
            bindE (pyIter sliced) (fun elems =>
              bindE (compNames elems) pyJoinBar))) from rfl, hcv]
      rfl
    · rw [show extract_cast_size (.obj fs) =
        (getVal "cast" fs).elim (.ok .null) (fun cv =>
          bindE (pyLen cv) (fun n => .ok (.num n))) from rfl, hcv]
      rfl
  · intro w h
    match w, h with
    | .null, _ | .bool _, _ | .num _, _ | .str _, _ | .inf _, _ | .arr _, _ =>
      exact ⟨rfl, rfl, rfl⟩
  · intro fs ys hcv
    rw [show extract_crew_size (.obj fs) =
      (getVal "crew" fs).elim (.ok .null) (fun cv =>
        bindE (pyLen cv) (fun n => .ok (.num n))) from rfl, hcv]
    rfl
  · intro fs hcv
    rw [show extract_crew_size (.obj fs) =
      (getVal "crew" fs).elim (.ok .null) (fun cv =>
        bindE (pyLen cv) (fun n => .ok (.num n))) from rfl, hcv]
    rfl

/-- C4 witness: a credits structure with twelve cast entries yields a
five-name pipe-joined cast string and `cast_size` twelve. -/
theorem C4_witness :
    extract_cast (.obj [("cast", .arr castTwelve)]) =
      .ok (.str "A1|A2|A3|A4|A5") ∧
    extract_cast_size (.obj [("cast", .arr castTwelve)]) = .ok (.num 12) := by
  have h := C4_theorem.1 [("cast", .arr castTwelve)] castTwelve rfl (by decide)
  exact ⟨h.1.trans (by decide), h.2.trans (by decide)⟩

/-- C7 counterexample: a production-companies list whose element is the
boolean True raises `TypeError` at the membership test, instead of
skipping the element or producing null. -/
theorem C7_counterexample :
    extract_production_companies (.arr [.bool true]) = .error () := by decide

/-- C7 (amended): for the four list extractors — on any input that is not
a non-empty list the result is null; on a non-empty list of maps whose
name values are strings, the result is the name values of exactly the
elements carrying a name key, pipe-joined in original order, elements
lacking a name silently skipped; when every element is a map lacking a
name key the result is the empty string, not null.  The claimed behaviour
is guaranteed only on lists of maps: with other element types the
extractor can raise `TypeError` — a boolean element makes the membership
test raise, as `C7_counterexample` shows — instead of skipping the
element. -/
theorem C7_theorem :
    (∀ w, isNonEmptyArr w = false →
      extract_genres w = .ok .null ∧
      extract_spoken_languages w = .ok .null ∧
      extract_production_countries w = .ok .null ∧
      extract_production_companies w = .ok .null) ∧
    (∀ xs, xs ≠ [] → xs.all wsEntry = true →
      extract_genres (.arr xs) =
        .ok (.str (String.intercalate "|" (specNames xs))) ∧
      extract_spoken_languages (.arr xs) =
        .ok (.str (String.intercalate "|" (specNames xs))) ∧
      extract_production_countries (.arr xs) =
        .ok (.str (String.intercalate "|" (specNames xs))) ∧
      extract_production_companies (.arr xs) =
        .ok (.str (String.intercalate "|" (specNames xs)))) ∧
    (∀ xs, xs ≠ [] → xs.all noNameEntry = true →
      extract_genres (.arr xs) = .ok (.str "") ∧
      extract_spoken_languages (.arr xs) = .ok (.str "") ∧
      extract_production_countries (.arr xs) = .ok (.str "") ∧
      extract_production_companies (.arr xs) = .ok (.str "")) := by
  refine ⟨?_, ?_, ?_⟩
  · intro w h
    have h0 := extractNameList_null w h
    exact ⟨h0, h0, h0, h0⟩
  · intro xs hne hws
    have h0 := extractNameList_ws xs hne hws
    exact ⟨h0, h0, h0, h0⟩
  · intro xs hne hnn
    obtain ⟨h0, hws⟩ := specNames_noName xs hnn
    have h1 := extractNameList_ws xs hne hws
    rw [h0] at h1
    rw [show String.intercalate "|" [] = "" from rfl] at h1
    exact ⟨h1, h1, h1, h1⟩

/-- C7 witness: a two-element genres list whose second element lacks a
name joins to the single name; an all-nameless list joins to the empty
string. -/
theorem C7_witness :
    extract_genres (.arr [.obj [("name", .str "Drama")], .obj [("x", .num 1)]]) =
      .ok (.str "Drama") ∧
    extract_spoken_languages (.arr [.obj [("x", .num 1)]]) = .ok (.str "") := by
  constructor
  · exact ((C7_theorem.2.1 [.obj [("name", .str "Drama")], .obj [("x", .num 1)]]
      (by simp) (by decide)).1).trans (by decide)
  · exact (C7_theorem.2.2 [.obj [("x", .num 1)]] (by simp) (by decide)).2.1

theorem getVal_setCell_same (r : Row) (c : String) (v : JVal) :
    getVal c (setCell r c v) = some v := by
  induction r with
  | nil => simp [setCell, getVal]
  | cons p fs ih =>
    obtain ⟨k, w⟩ := p
    by_cases hk : k = c
    · simp [setCell, hk, getVal]
    · simp [setCell, hk, getVal, ih]

theorem getVal_setCell_ne (r : Row) (c d : String) (v : JVal) (h : d ≠ c) :
    getVal c (setCell r d v) = getVal c r := by
  induction r with
  | nil => simp [setCell, getVal, h]
  | cons p fs ih =>
    obtain ⟨k, w⟩ := p
    by_cases hk : k = d
    · simp [setCell, hk, getVal, h, Ne.symm h]
    · by_cases hc : k = c
      · subst hc
        rw [show setCell ((k, w) :: fs) d v =
          (if k = d then (d, v) :: fs else (k, w) :: setCell fs d v) from rfl]
        rw [if_neg hk]
        simp [getVal]
      · simp [setCell, hk, getVal, hc, ih]

theorem getCell_setCell_same (r : Row) (c : String) (v : JVal) :
    getCell (setCell r c v) c = v := by
  simp [getCell, getVal_setCell_same]

theorem getCell_setCell_ne (r : Row) (c d : String) (v : JVal) (h : d ≠ c) :
    getCell (setCell r d v) c = getCell r c := by
  simp [getCell, getVal_setCell_ne r c d v h]

theorem mapExc_forall2 (f : α → Except Unit β) :
    ∀ (l : List α) (l2 : List β), mapExc f l = .ok l2 →
      List.Forall₂ (fun a b => f a = .ok b) l l2 := by
  intro l
  induction l with
  | nil =>
    intro l2 h
    rw [show mapExc f [] = .ok [] from rfl] at h
    cases h
    exact List.Forall₂.nil
  | cons x xs ih =>
    intro l2 h
    rw [show mapExc f (x :: xs) =
      bindE (f x) (fun y => bindE (mapExc f xs) (fun ys => .ok (y :: ys)))
      from rfl] at h
    cases hfx : f x with
    | error e => rw [hfx, bindE_errorE] at h; cases h
    | ok y =>
      rw [hfx, bindE_okE] at h
      cases hm : mapExc f xs with
      | error e => rw [hm, bindE_errorE] at h; cases h
      | ok ys =>
        rw [hm, bindE_okE] at h
        cases h
        exact List.Forall₂.cons hfx (ih ys hm)

/-- C5 counterexample: feeding `add_kpis` a row with budget zero and
revenue five produces roi = +infinity, which is not null, contradicting
"roi is null whenever budget is 0". -/
theorem C5_counterexample :
    (kpiRows kpiZeroBudget).map (fun r => getCell r "roi") = [JVal.inf true] ∧
    JVal.inf true ≠ JVal.null := by
  constructor
  · decide
  · decide

/-- C5 (amended): `add_kpis` computes profit as revenue minus budget and
roi as revenue over budget, both null when either operand is null; but
when budget is the number 0, roi is null only when revenue is also 0 —
for nonzero revenue, roi is a signed infinity (pandas float division by
zero), not null as claimed. -/
theorem C5_theorem (df : DFrame) (h : (add_kpis df).isOk = true) :
    List.Forall₂ (fun r r2 =>
      ((getCell r "revenue_musd" = JVal.null ∨
        getCell r "budget_musd" = JVal.null) →
        getCell r2 "profit_musd" = JVal.null ∧
        getCell r2 "roi" = JVal.null) ∧
      (∀ x y : ℚ, getCell r "revenue_musd" = .num x →
        getCell r "budget_musd" = .num y →
        getCell r2 "profit_musd" = .num (x - y) ∧
        (y = 0 → x = 0 → getCell r2 "roi" = JVal.null) ∧
        (y = 0 → x ≠ 0 → getCell r2 "roi" = JVal.inf (decide (0 < x))) ∧
        (y ≠ 0 → getCell r2 "roi" = .num (x / y))))
      df.rows (kpiRows df) := by
  rw [show add_kpis df =
    (if "revenue_musd" ∈ df.cols ∧ "budget_musd" ∈ df.cols then
      bindE (mapExc (fun r =>
        bindE (pySub (getCell r "revenue_musd") (getCell r "budget_musd")) (fun p =>
        bindE (pyDiv (getCell r "revenue_musd") (getCell r "budget_musd")) (fun q =>
        Except.ok (setCell (setCell r "profit_musd" p) "roi" q)))) df.rows)
        (fun rows2 =>
          let cols1 := if "profit_musd" ∈ df.cols then df.cols
                       else df.cols ++ ["profit_musd"]
          .ok { cols := if "roi" ∈ cols1 then cols1 else cols1 ++ ["roi"],
                rows := rows2 })
    else .error ()) from rfl] at h
  by_cases hc : "revenue_musd" ∈ df.cols ∧ "budget_musd" ∈ df.cols
  · rw [if_pos hc] at h
    cases hm : mapExc (fun r =>
        bindE (pySub (getCell r "revenue_musd") (getCell r "budget_musd")) (fun p =>
        bindE (pyDiv (getCell r "revenue_musd") (getCell r "budget_musd")) (fun q =>
        Except.ok (setCell (setCell r "profit_musd" p) "roi" q)))) df.rows with
    | error e => rw [hm, bindE_errorE] at h; cases h
    | ok rows2 =>
      have hk : kpiRows df = rows2 := by
        unfold kpiRows
        rw [show add_kpis df =
          (if "revenue_musd" ∈ df.cols ∧ "budget_musd" ∈ df.cols then
            bindE (mapExc (fun r =>
              bindE (pySub (getCell r "revenue_musd") (getCell r "budget_musd")) (fun p =>
              bindE (pyDiv (getCell r "revenue_musd") (getCell r "budget_musd")) (fun q =>
              Except.ok (setCell (setCell r "profit_musd" p) "roi" q)))) df.rows)
              (fun rows2 =>
                let cols1 := if "profit_musd" ∈ df.cols then df.cols
                             else df.cols ++ ["profit_musd"]
                .ok { cols := if "roi" ∈ cols1 then cols1 else cols1 ++ ["roi"],
                      rows := rows2 })
          else .error ()) from rfl]
        rw [if_pos hc, hm, bindE_okE]
      rw [hk]
      have h2 := mapExc_forall2 _ df.rows rows2 hm
      refine List.Forall₂.imp ?_ h2
      intro r r2 hg
      cases hsub : pySub (getCell r "revenue_musd") (getCell r "budget_musd") with
      | error e => rw [hsub, bindE_errorE] at hg; cases hg
      | ok p =>
        rw [hsub, bindE_okE] at hg
        cases hdiv : pyDiv (getCell r "revenue_musd") (getCell r "budget_musd") with
        | error e => rw [hdiv, bindE_errorE] at hg; cases hg
        | ok q =>
          rw [hdiv, bindE_okE] at hg
          cases hg
          have hprofit : getCell (setCell (setCell r "profit_musd" p) "roi" q)
              "profit_musd" = p := by
            rw [getCell_setCell_ne _ _ _ _ (by decide), getCell_setCell_same]
          have hroi : getCell (setCell (setCell r "profit_musd" p) "roi" q)
              "roi" = q := getCell_setCell_same _ _ _
          constructor
          · intro hnull
            rw [hprofit, hroi]
            rcases hnull with ha | hb
            · rw [ha] at hsub hdiv
              cases hbv : getCell r "budget_musd" <;> rw [hbv] at hsub hdiv <;>
                first
                | (cases hsub; cases hdiv; exact ⟨rfl, rfl⟩)
                | (exfalso; cases hsub)
            · rw [hb] at hsub hdiv
              cases hav : getCell r "revenue_musd" <;> rw [hav] at hsub hdiv <;>
                first
                | (cases hsub; cases hdiv; exact ⟨rfl, rfl⟩)
                | (exfalso; cases hsub)
          · intro x y hx hy
            rw [hx, hy] at hsub hdiv
            rw [show pySub (JVal.num x) (JVal.num y) = .ok (.num (x - y))
              from rfl] at hsub
            cases hsub
            refine ⟨hprofit, ?_, ?_, ?_⟩
            · intro hy0 hx0
              rw [hroi]
              rw [show pyDiv (JVal.num x) (JVal.num y) =
                (if y = 0 then
                  if x = 0 then .ok .null
                  else .ok (.inf (decide (0 < x)))
                else .ok (.num (x / y))) from rfl, if_pos hy0, if_pos hx0] at hdiv
              cases hdiv
              rfl
            · intro hy0 hx0
              rw [hroi]
              rw [show pyDiv (JVal.num x) (JVal.num y) =
                (if y = 0 then
                  if x = 0 then .ok .null
                  else .ok (.inf (decide (0 < x)))
                else .ok (.num (x / y))) from rfl, if_pos hy0, if_neg hx0] at hdiv
              cases hdiv
              rfl
            · intro hy0
              rw [hroi]
              rw [show pyDiv (JVal.num x) (JVal.num y) =
                (if y = 0 then
                  if x = 0 then .ok .null
                  else .ok (.inf (decide (0 < x)))
                else .ok (.num (x / y))) from rfl, if_neg hy0] at hdiv
              cases hdiv
              rfl
  · rw [if_neg hc] at h
    cases h

/-- C5 witness: the amended statement at a one-row frame with revenue five
and a null budget — both derived columns are null there. -/
theorem C5_witness :
    List.Forall₂ (fun r r2 =>
      ((getCell r "revenue_musd" = JVal.null ∨
        getCell r "budget_musd" = JVal.null) →
        getCell r2 "profit_musd" = JVal.null ∧
        getCell r2 "roi" = JVal.null) ∧
      (∀ x y : ℚ, getCell r "revenue_musd" = .num x →
        getCell r "budget_musd" = .num y →
        getCell r2 "profit_musd" = .num (x - y) ∧
        (y = 0 → x = 0 → getCell r2 "roi" = JVal.null) ∧
        (y = 0 → x ≠ 0 → getCell r2 "roi" = JVal.inf (decide (0 < x))) ∧
        (y ≠ 0 → getCell r2 "roi" = .num (x / y))))
      ({ cols := ["revenue_musd", "budget_musd"],
         rows := [[("revenue_musd", .num 5), ("budget_musd", .null)]] }
        : DFrame).rows
      (kpiRows { cols := ["revenue_musd", "budget_musd"],
                 rows := [[("revenue_musd", .num 5), ("budget_musd", .null)]] }) :=
  C5_theorem _ (by decide)

/-- C6: a literal zero in budget, revenue or runtime becomes null before
unit conversion; the conversion to millions is null-propagating; and end
to end, a raw record with budget 0 and revenue 0 yields null, not 0.0, in
both derived million-dollar columns while remaining in the output. -/
theorem C6_theorem :
    zeroToNull (.num 0) = JVal.null ∧
    musdCell JVal.null = JVal.null ∧
    (∀ q : ℚ, musdCell (.num q) = .num (q / 1000000)) ∧
    musdCell (zeroToNull (.num 0)) = JVal.null ∧
    runCol (mkDF [recFull]) "budget_musd" = [JVal.null] ∧
    runCol (mkDF [recFull]) "revenue_musd" = [JVal.null] ∧
    (runRows (mkDF [recFull])).length = 1 := by
  refine ⟨rfl, rfl, fun q => rfl, rfl, ?_, ?_, ?_⟩
  · decide!
  · decide!
  · decide!

theorem removeKeys_cons (k : String) (w : JVal) (fs : Row) (cs : List String) :
    removeKeys ((k, w) :: fs) cs =
      if cs.contains k then removeKeys fs cs else (k, w) :: removeKeys fs cs := by
  unfold removeKeys
  rw [List.filter_cons]
  by_cases hk : cs.contains k <;> simp [hk]

theorem getVal_removeKeys (r : Row) (cs : List String) (c : String)
    (h : cs.contains c = false) :
    getVal c (removeKeys r cs) = getVal c r := by
  induction r with
  | nil => rfl
  | cons p fs ih =>
    obtain ⟨k, w⟩ := p
    rw [removeKeys_cons]
    by_cases hk : cs.contains k
    · have hkc : k ≠ c := fun hh => by rw [hh] at hk; rw [hk] at h; cases h
      rw [if_pos hk, ih]
      simp [getVal, hkc]
    · rw [if_neg hk]
      by_cases hkc : k = c
      · simp [getVal, hkc]
      · simp [getVal, hkc, ih]

theorem getCell_removeKeys (r : Row) (cs : List String) (c : String)
    (h : cs.contains c = false) :
    getCell (removeKeys r cs) c = getCell r c := by
  simp [getCell, getVal_removeKeys r cs c h]

theorem getCell_restrictRow (r : Row) :
    ∀ (cs : List String) (c : String), c ∈ cs →
      getCell (restrictRow r cs) c = getCell r c := by
  intro cs
  induction cs with
  | nil => intro c h; cases h
  | cons l cs ih =>
    intro c h
    by_cases hl : l = c
    · simp [restrictRow, getCell, getVal, hl]
    · have h2 : c ∈ cs := by
        rcases List.mem_cons.mp h with h1 | h1
        · exact absurd h1.symm hl
        · exact h1
      rw [show restrictRow r (l :: cs) =
        (l, getCell r l) :: restrictRow r cs from rfl]
      rw [show getCell ((l, getCell r l) :: restrictRow r cs) c =
        (if l = c then some (getCell r l)
         else getVal c (restrictRow r cs)).getD .null from rfl]
      rw [if_neg hl]
      exact ih c h2

theorem restrictRow_congr (r r2 : Row) (cs : List String)
    (h : ∀ c ∈ cs, getCell r c = getCell r2 c) :
    restrictRow r cs = restrictRow r2 cs := by
  unfold restrictRow
  exact List.map_congr_left fun c hc => by rw [h c hc]

theorem dedupRows_sublist (c : String) :
    ∀ (l : List Row) (seen : List JVal), List.Sublist (dedupRows c seen l) l := by
  intro l
  induction l with
  | nil => intro seen; exact List.Sublist.refl []
  | cons a rs ih =>
    intro seen
    rw [show dedupRows c seen (a :: rs) =
      (if getCell a c ∈ seen then dedupRows c seen rs
       else a :: dedupRows c (getCell a c :: seen) rs) from rfl]
    by_cases hm : getCell a c ∈ seen
    · rw [if_pos hm]
      exact (ih seen).trans (List.sublist_cons_self a rs)
    · rw [if_neg hm]
      exact List.Sublist.cons₂ a (ih (getCell a c :: seen))

theorem dedupRows_first (c : String) :
    ∀ (l : List Row) (seen : List JVal) (r : Row),
      r ∈ dedupRows c seen l →
      getCell r c ∉ seen ∧
      l.find? (fun x => getCell x c == getCell r c) = some r := by
  intro l
  induction l with
  | nil => intro seen r hr; cases hr
  | cons a rs ih =>
    intro seen r hr
    rw [show dedupRows c seen (a :: rs) =
      (if getCell a c ∈ seen then dedupRows c seen rs
       else a :: dedupRows c (getCell a c :: seen) rs) from rfl] at hr
    by_cases hm : getCell a c ∈ seen
    · rw [if_pos hm] at hr
      obtain ⟨hns, hfind⟩ := ih seen r hr
      have hne : (getCell a c == getCell r c) = false := by
        rw [beq_eq_false_iff_ne]
        intro hh
        exact hns (hh ▸ hm)
      refine ⟨hns, ?_⟩
      rw [List.find?_cons, hne]
      exact hfind
    · rw [if_neg hm] at hr
      rcases List.mem_cons.mp hr with hr1 | hr1
      · subst hr1
        refine ⟨hm, ?_⟩
        rw [List.find?_cons, show (getCell r c == getCell r c) = true from
          beq_self_eq_true _]
      · obtain ⟨hns, hfind⟩ := ih (getCell a c :: seen) r hr1
        have hna : getCell r c ≠ getCell a c := fun hh => hns (by
          rw [hh]; exact List.mem_cons_self (getCell a c) seen)
        have hnseen : getCell r c ∉ seen := fun hh => hns (List.mem_cons_of_mem _ hh)
        have hne : (getCell a c == getCell r c) = false := by
          rw [beq_eq_false_iff_ne]
          exact fun hh => hna hh.symm
        refine ⟨hnseen, ?_⟩
        rw [List.find?_cons, hne]
        exact hfind

theorem dedupRows_nodup (c : String) :
    ∀ (l : List Row) (seen : List JVal),
      ((dedupRows c seen l).map (fun r => getCell r c)).Nodup ∧
      ∀ r ∈ dedupRows c seen l, getCell r c ∉ seen := by
  intro l
  induction l with
  | nil =>
    intro seen
    refine ⟨List.nodup_nil, fun r hr => ?_⟩
    rw [show dedupRows c seen [] = [] from rfl] at hr
    cases hr
  | cons a rs ih =>
    intro seen
    rw [show dedupRows c seen (a :: rs) =
      (if getCell a c ∈ seen then dedupRows c seen rs
       else a :: dedupRows c (getCell a c :: seen) rs) from rfl]
    by_cases hm : getCell a c ∈ seen
    · rw [if_pos hm]
      exact ih seen
    · rw [if_neg hm]
      obtain ⟨hnd, hseen⟩ := ih (getCell a c :: seen)
      constructor
      · rw [List.map_cons, List.nodup_cons]
        refine ⟨?_, hnd⟩
        intro hmem
        rw [List.mem_map] at hmem
        obtain ⟨r, hr, hv⟩ := hmem
        exact (hseen r hr) (by rw [hv]; exact List.mem_cons_self (getCell a c) seen)
      · intro r hr
        rcases List.mem_cons.mp hr with hr1 | hr1
        · subst hr1; exact hm
        · exact fun hh => (hseen r hr1) (List.mem_cons_of_mem _ hh)

theorem dropnaIdTitle_ok (d d2 : DFrame) (h : dropnaIdTitle d = .ok d2) :
    "id" ∈ d.cols ∧ "title" ∈ d.cols ∧ d2.cols = d.cols ∧
    d2.rows = d.rows.filter (fun r =>
      getCell r "id" != JVal.null && getCell r "title" != JVal.null) := by
  unfold dropnaIdTitle at h
  by_cases hc : "id" ∈ d.cols ∧ "title" ∈ d.cols
  · rw [if_pos hc] at h
    cases h
    exact ⟨hc.1, hc.2, rfl, rfl⟩
  · rw [if_neg hc] at h
    cases h

theorem run_destruct (df out : DFrame) (h : run df = .ok out) :
    ∃ m d2, preDedup df = .ok m ∧
      dropnaIdTitle (dropDuplicatesId m) = .ok d2 ∧
      out = reorderColumns (statusFilter (dropnaThresh 10 d2)) := by
  rw [show run df = bindE (preDedup df) (fun m =>
    bindE (dropnaIdTitle (dropDuplicatesId m)) (fun d2 =>
    .ok (reorderColumns (statusFilter (dropnaThresh 10 d2))))) from rfl] at h
  cases hm : preDedup df with
  | error e => rw [hm, bindE_errorE] at h; cases h
  | ok m =>
    rw [hm, bindE_okE] at h
    cases hd2 : dropnaIdTitle (dropDuplicatesId m) with
    | error e => rw [hd2, bindE_errorE] at h; cases h
    | ok d2 =>
      rw [hd2, bindE_okE] at h
      injection h with h3
      exact ⟨m, d2, rfl, hd2, h3.symm⟩

theorem finalColumnOrder_no_status : ∀ c ∈ finalColumnOrder, c ≠ "status" := by
  decide

theorem mem_out_cols (d2 : DFrame) (c : String) (hc1 : c ∈ finalColumnOrder)
    (hc2 : c ≠ "status") (hcc : c ∈ d2.cols) :
    c ∈ (reorderColumns (statusFilter (dropnaThresh 10 d2))).cols := by
  show c ∈ finalColumnOrder.filter
    (fun x => x ∈ (statusFilter (dropnaThresh 10 d2)).cols)
  rw [List.mem_filter]
  refine ⟨hc1, decide_eq_true ?_⟩
  show c ∈ (statusFilter (dropnaThresh 10 d2)).cols
  unfold statusFilter
  by_cases hst : "status" ∈ (dropnaThresh 10 d2).cols
  · rw [if_pos hst]
    show c ∈ (dropnaThresh 10 d2).cols.filter (fun x => !(x == "status"))
    rw [List.mem_filter]
    refine ⟨hcc, ?_⟩
    simp [hc2]
  · rw [if_neg hst]
    exact hcc

/-- Origin of an output row: every row of a successful run is the
projection, onto the output columns, of a row that survived the
completeness threshold. -/
theorem run_row_origin (df m d2 out : DFrame)
    (hm : preDedup df = .ok m)
    (hd2 : dropnaIdTitle (dropDuplicatesId m) = .ok d2)
    (hout : out = reorderColumns (statusFilter (dropnaThresh 10 d2)))
    (r : Row) (hr : r ∈ out.rows) :
    ∃ r3 ∈ (dropnaThresh 10 d2).rows, r = restrictRow r3 out.cols := by
  have hcols : ∀ c ∈ out.cols, c ∈ finalColumnOrder := by
    intro c hc
    rw [hout] at hc
    exact (List.mem_filter.mp hc).1
  rw [hout] at hr
  rw [show (reorderColumns (statusFilter (dropnaThresh 10 d2))).rows =
    (statusFilter (dropnaThresh 10 d2)).rows.map (fun r =>
      restrictRow r (finalColumnOrder.filter
        (fun c => c ∈ (statusFilter (dropnaThresh 10 d2)).cols))) from rfl] at hr
  rw [List.mem_map] at hr
  obtain ⟨r2, hr2, hrr⟩ := hr
  have hcs : (finalColumnOrder.filter
      (fun c => c ∈ (statusFilter (dropnaThresh 10 d2)).cols)) = out.cols := by
    rw [hout]; rfl
  rw [hcs] at hrr
  unfold statusFilter at hr2
  by_cases hst : "status" ∈ (dropnaThresh 10 d2).cols
  · rw [if_pos hst] at hr2
    simp only [List.mem_map] at hr2
    obtain ⟨r3, hr3, hrk⟩ := hr2
    refine ⟨r3, List.mem_of_mem_filter hr3, ?_⟩
    rw [← hrr, ← hrk]
    refine (restrictRow_congr _ _ _ ?_).symm
    intro c hc
    refine (getCell_removeKeys r3 ["status"] c ?_).symm
    have hne := finalColumnOrder_no_status c (hcols c hc)
    simp [hne]
  · rw [if_neg hst] at hr2
    exact ⟨r2, hr2, hrr.symm⟩

/-- C9: when the batch has a status column, the pipeline retains only rows
whose status is exactly "Released" and removes the column; when it has
none, the status step is the identity (no error); the output schema of any
successful run never contains status; and concretely a complete
"Post Production" record is excluded while a batch without status passes
through with one row and no status column. -/
theorem C9_theorem :
    (∀ d : DFrame, "status" ∉ d.cols → statusFilter d = d) ∧
    (∀ d : DFrame, "status" ∈ d.cols →
      "status" ∉ (statusFilter d).cols ∧
      ((statusFilter d).rows.all (fun r => d.rows.any (fun r0 =>
        (getCell r0 "status" == JVal.str "Released") &&
        (r == removeKeys r0 ["status"])))) = true) ∧
    (∀ df : DFrame, "status" ∉ runCols df) ∧
    runRows batchPost = [] ∧
    (runRows batchNoStatus).length = 1 ∧
    runCol batchNoStatus "title" = [JVal.str "First"] := by
  refine ⟨?_, ?_, ?_, ?_, ?_, ?_⟩
  · intro d hd
    unfold statusFilter
    rw [if_neg hd]
  · intro d hd
    unfold statusFilter
    rw [if_pos hd]
    constructor
    · intro hmem
      simp only [List.mem_filter] at hmem
      simp at hmem
    · rw [List.all_eq_true]
      intro r hr
      simp only [List.mem_map] at hr
      obtain ⟨r0, hr0, hrk⟩ := hr
      rw [List.any_eq_true]
      refine ⟨r0, List.mem_of_mem_filter hr0, ?_⟩
      rw [Bool.and_eq_true]
      exact ⟨(List.mem_filter.mp hr0).2, by rw [← hrk]; exact beq_self_eq_true _⟩
  · intro df
    unfold runCols
    cases hrun : run df with
    | error e => simp
    | ok out =>
      obtain ⟨m, d2, hm, hd2, hout⟩ := run_destruct df out hrun
      intro hmem
      rw [hout] at hmem
      have := (List.mem_filter.mp hmem).1
      exact absurd rfl (finalColumnOrder_no_status "status" this)
  · decide!
  · decide!
  · decide!

/-- C9 witness: the status-step facts at concrete frames with and without
a status column. -/
theorem C9_witness :
    statusFilter dfNoStatusCol = dfNoStatusCol ∧
    "status" ∉ (statusFilter dfWithStatusCol).cols ∧
    "status" ∉ runCols batchNoStatus :=
  ⟨C9_theorem.1 dfNoStatusCol (by decide),
   (C9_theorem.2.1 dfWithStatusCol (by decide)).1,
   C9_theorem.2.2.1 batchNoStatus⟩

/-- C10: because deduplication keeps the first row of each id and runs
before null ids and titles are dropped, a batch whose first record for an
id resolves to a null title yields no output row at all for that id. -/
theorem C10_theorem (df : DFrame) (v : JVal)
    (h : firstTitleNull df v = true) :
    (runRows df).filter (fun r => getCell r "id" == v) = [] := by
  unfold runRows
  cases hrun : run df with
  | error e => rfl
  | ok out =>
    obtain ⟨m, d2, hm, hd2, hout⟩ := run_destruct df out hrun
    unfold firstTitleNull at h
    rw [hm] at h
    have h2 : (match m.rows.find? (fun x => getCell x "id" == v) with
      | some r0 => getCell r0 "title" == JVal.null
      | none => false) = true := h
    cases hf : m.rows.find? (fun x => getCell x "id" == v) with
    | none => rw [hf] at h2; cases h2
    | some r0 =>
      rw [hf] at h2
      have ht0 : getCell r0 "title" = JVal.null := by
        rwa [beq_iff_eq] at h2
      rw [List.filter_eq_nil_iff]
      intro r hr
      intro hid
      rw [beq_iff_eq] at hid
      obtain ⟨r3, hr3, hrr⟩ := run_row_origin df m d2 out hm hd2 hout r hr
      obtain ⟨hr3d2, _⟩ := List.mem_filter.mp hr3
      obtain ⟨hidcol, _, hd2cols, hd2rows⟩ := dropnaIdTitle_ok _ _ hd2
      rw [hd2rows] at hr3d2
      obtain ⟨hr3d, hr3keep⟩ := List.mem_filter.mp hr3d2
      have hidd2 : "id" ∈ d2.cols := by rw [hd2cols]; exact hidcol
      have hidcs : "id" ∈ out.cols := by
        rw [hout]
        exact mem_out_cols d2 "id" (by decide) (by decide) hidd2
      have hid3 : getCell r3 "id" = v := by
        rw [← hid, hrr, getCell_restrictRow _ _ _ hidcs]
      obtain ⟨_, hfind3⟩ := dedupRows_first "id" m.rows [] r3 hr3d
      have : m.rows.find? (fun x => getCell x "id" == v) = some r3 := by
        rw [← hid3]
        exact hfind3
      rw [hf] at this
      cases this
      rw [Bool.and_eq_true] at hr3keep
      have := hr3keep.2
      rw [ht0] at this
      simp at this

/-- C10 witness: a concrete batch where the first id-1 record has a null
title and the second a non-null one produces no id-1 output row. -/
theorem C10_witness :
    (runRows batchC10).filter (fun r => getCell r "id" == JVal.num 1) = [] :=
  C10_theorem batchC10 (JVal.num 1) (by decide!)

theorem map_getCell_statusFilter (t : DFrame) (c : String)
    (hc : (["status"].contains c) = false) :
    ∃ l, List.Sublist l t.rows ∧
      (statusFilter t).rows.map (fun r => getCell r c) =
        l.map (fun r => getCell r c) := by
  unfold statusFilter
  by_cases hst : "status" ∈ t.cols
  · rw [if_pos hst]
    refine ⟨t.rows.filter (fun r => getCell r "status" == JVal.str "Released"),
      List.filter_sublist _, ?_⟩
    show ((t.rows.filter (fun r => getCell r "status" == JVal.str "Released")).map
      (fun r => removeKeys r ["status"])).map (fun r => getCell r c) =
      (t.rows.filter (fun r => getCell r "status" == JVal.str "Released")).map
        (fun r => getCell r c)
    rw [List.map_map]
    exact List.map_congr_left (fun r hr => getCell_removeKeys r ["status"] c hc)
  · rw [if_neg hst]
    exact ⟨t.rows, List.Sublist.refl _, rfl⟩

/-- C1: in every successful pipeline output each id value appears at most
once; every output row is the projection of the FIRST pre-dedup row
bearing its id value, so on duplicate ids the first record in batch order
wins; and in particular the concrete two-record batch with identical ids
and titles "First" / "Second" yields exactly the single row titled
"First". -/
theorem C1_theorem (df : DFrame) (h : (run df).isOk = true) :
    ((runRows df).map (fun r => getCell r "id")).Nodup ∧
    ((runRows df).all (fun r =>
      match (preDedupRows df).find?
          (fun x => getCell x "id" == getCell r "id") with
      | some r2 => r == restrictRow r2 (runCols df)
      | none => false)) = true ∧
    runCol batchDup "title" = [JVal.str "First"] ∧
    runCol batchDup "id" = [JVal.num 1] := by
  cases hrun : run df with
  | error e => rw [hrun] at h; cases h
  | ok out =>
    obtain ⟨m, d2, hm, hd2, hout⟩ := run_destruct df out hrun
    subst hout
    obtain ⟨hidcolD, htitlecolD, hd2cols, hd2rows⟩ := dropnaIdTitle_ok _ _ hd2
    have hidd2 : "id" ∈ d2.cols := by rw [hd2cols]; exact hidcolD
    have hidcs : "id" ∈
        (reorderColumns (statusFilter (dropnaThresh 10 d2))).cols :=
      mem_out_cols d2 "id" (by decide) (by decide) hidd2
    have hrows : runRows df =
        (reorderColumns (statusFilter (dropnaThresh 10 d2))).rows := by
      unfold runRows; rw [hrun]
    refine ⟨?_, ?_, by decide!, by decide!⟩
    · rw [hrows]
      have h1 : (reorderColumns (statusFilter (dropnaThresh 10 d2))).rows.map
          (fun r => getCell r "id") =
          (statusFilter (dropnaThresh 10 d2)).rows.map
            (fun r => getCell r "id") := by
        show ((statusFilter (dropnaThresh 10 d2)).rows.map
          (fun r => restrictRow r (finalColumnOrder.filter
            (fun c => c ∈ (statusFilter (dropnaThresh 10 d2)).cols)))).map
          (fun r => getCell r "id") =
          (statusFilter (dropnaThresh 10 d2)).rows.map
            (fun r => getCell r "id")
        rw [List.map_map]
        refine List.map_congr_left ?_
        intro r2 hr2
        show getCell (restrictRow r2 (finalColumnOrder.filter
          (fun c => c ∈ (statusFilter (dropnaThresh 10 d2)).cols))) "id" =
          getCell r2 "id"
        exact getCell_restrictRow r2 _ "id" hidcs
      obtain ⟨l, hl, hmap⟩ :=
        map_getCell_statusFilter (dropnaThresh 10 d2) "id" (by decide)
      rw [h1, hmap]
      have s1 : List.Sublist l d2.rows :=
        hl.trans (List.filter_sublist d2.rows)
      have s2 : List.Sublist l (dropDuplicatesId m).rows := by
        rw [hd2rows] at s1
        exact s1.trans (List.filter_sublist (dropDuplicatesId m).rows)
      exact List.Nodup.sublist (s2.map (fun r => getCell r "id"))
        (dedupRows_nodup "id" m.rows []).1
    · rw [hrows, List.all_eq_true]
      intro r hr
      obtain ⟨r3, hr3, hrr⟩ := run_row_origin df m d2 _ hm hd2 rfl r hr
      have hr3d2 : r3 ∈ d2.rows := List.mem_of_mem_filter hr3
      have hr3d : r3 ∈ (dropDuplicatesId m).rows := by
        rw [hd2rows] at hr3d2
        exact List.mem_of_mem_filter hr3d2
      obtain ⟨-, hfind3⟩ := dedupRows_first "id" m.rows [] r3 hr3d
      have hid3 : getCell r "id" = getCell r3 "id" := by
        rw [hrr]; exact getCell_restrictRow r3 _ "id" hidcs
      have hpdr : preDedupRows df = m.rows := by unfold preDedupRows; rw [hm]
      rw [hpdr, hid3, hfind3]
      show (r == restrictRow r3 (runCols df)) = true
      have hrc : runCols df =
          (reorderColumns (statusFilter (dropnaThresh 10 d2))).cols := by
        unfold runCols; rw [hrun]
      rw [hrc, ← hrr]
      exact beq_self_eq_true r

/-- C1 witness: the uniqueness and first-wins facts at the concrete
duplicate-id batch. -/
theorem C1_witness :
    runCol batchDup "title" = [JVal.str "First"] ∧
    ((runRows batchDup).map (fun r => getCell r "id")).Nodup :=
  ⟨(C1_theorem batchDup (by decide!)).2.2.1,
   (C1_theorem batchDup (by decide!)).1⟩

/-- C8: every row of a successful pipeline output is the projection of a
row that carried at least ten non-null fields across the full pre-reorder
column set; concretely, a record resolving to only nine non-null fields
is excluded even with a valid id and title, while a complete record is
retained. -/
theorem C8_theorem (df : DFrame) (h : (run df).isOk = true) :
    ((runRows df).all (fun r =>
      (threshStage df).rows.any (fun r2 =>
        decide (10 ≤ countNonNull (preDedupCols df) r2) &&
        (r == restrictRow r2 (runCols df))))) = true ∧
    runRows batchNine = [] ∧
    (runRows (mkDF [recFull])).length = 1 := by
  cases hrun : run df with
  | error e => rw [hrun] at h; cases h
  | ok out =>
    obtain ⟨m, d2, hm, hd2, hout⟩ := run_destruct df out hrun
    subst hout
    obtain ⟨hidcolD, htitlecolD, hd2cols, hd2rows⟩ := dropnaIdTitle_ok _ _ hd2
    have hrows : runRows df =
        (reorderColumns (statusFilter (dropnaThresh 10 d2))).rows := by
      unfold runRows; rw [hrun]
    have hts : threshStage df = dropnaThresh 10 d2 := by
      unfold threshStage
      rw [hm]
      show (match dropnaIdTitle (dropDuplicatesId m) with
        | .ok d2 => dropnaThresh 10 d2
        | .error _ => { cols := [], rows := [] }) = dropnaThresh 10 d2
      rw [hd2]
    have hpc : preDedupCols df = m.cols := by
      unfold preDedupCols; rw [hm]
    refine ⟨?_, by decide!, by decide!⟩
    rw [hrows, List.all_eq_true]
    intro r hr
    obtain ⟨r3, hr3, hrr⟩ := run_row_origin df m d2 _ hm hd2 rfl r hr
    rw [List.any_eq_true]
    refine ⟨r3, by rw [hts]; exact hr3, ?_⟩
    rw [Bool.and_eq_true]
    constructor
    · have hkeep := (List.mem_filter.mp hr3).2
      have hcolseq : d2.cols = m.cols := by
        rw [hd2cols]; rfl
      rw [hpc, ← hcolseq]
      exact hkeep
    · have hrc : runCols df =
          (reorderColumns (statusFilter (dropnaThresh 10 d2))).cols := by
        unfold runCols; rw [hrun]
      rw [hrc, ← hrr]
      exact beq_self_eq_true r

/-- C8 witness: the completeness-threshold fact at the concrete complete
one-record batch. -/
theorem C8_witness :
    ((runRows (mkDF [recFull])).all (fun r =>
      (threshStage (mkDF [recFull])).rows.any (fun r2 =>
        decide (10 ≤ countNonNull (preDedupCols (mkDF [recFull])) r2) &&
        (r == restrictRow r2 (runCols (mkDF [recFull])))))) = true :=
  (C8_theorem (mkDF [recFull]) (by decide!)).1

theorem getColumn_ok (df : DFrame) (c : String) (h : c ∈ df.cols) :
    getColumn df c = .ok (df.rows.map (fun r => getCell r c)) := by
  unfold getColumn
  rw [if_pos h]

theorem mapExc_ok_of_forall (f : α → Except Unit β) :
    ∀ l : List α, (∀ x ∈ l, (f x).isOk = true) →
      ∃ l2, mapExc f l = .ok l2 ∧ l2.length = l.length := by
  intro l
  induction l with
  | nil => intro h; exact ⟨[], rfl, rfl⟩
  | cons x xs ih =>
    intro h
    have hx := h x (List.mem_cons_self x xs)
    cases hfx : f x with
    | error e => rw [hfx] at hx; cases hx
    | ok y =>
      obtain ⟨l2, hl2, hlen⟩ := ih (fun a ha => h a (List.mem_cons_of_mem x ha))
      refine ⟨y :: l2, ?_, by simp [hlen]⟩
      rw [show mapExc f (x :: xs) = bindE (f x) (fun y =>
        bindE (mapExc f xs) (fun ys => .ok (y :: ys))) from rfl]
      rw [hfx, bindE_okE, hl2, bindE_okE]

theorem mem_setColumn_of_mem (df : DFrame) (c : String) (vs : List JVal)
    (d : String) (h : d ∈ df.cols) : d ∈ (setColumn df c vs).cols := by
  show d ∈ (if c ∈ df.cols then df.cols else df.cols ++ [c])
  by_cases hc : c ∈ df.cols
  · rw [if_pos hc]; exact h
  · rw [if_neg hc]; exact List.mem_append_left _ h

theorem mem_setColumn_self (df : DFrame) (c : String) (vs : List JVal) :
    c ∈ (setColumn df c vs).cols := by
  show c ∈ (if c ∈ df.cols then df.cols else df.cols ++ [c])
  by_cases hc : c ∈ df.cols
  · rw [if_pos hc]; exact hc
  · rw [if_neg hc]; exact List.mem_append_right _ (List.mem_cons_self c [])

theorem setColumn_rows_len (df : DFrame) (c : String) (vs : List JVal)
    (h : vs.length = df.rows.length) :
    (setColumn df c vs).rows.length = df.rows.length := by
  show ((df.rows.zip vs).map (fun p => setCell p.1 c p.2)).length = df.rows.length
  rw [List.length_map, List.length_zip, h, Nat.min_self]

theorem zip_setCell_map_getCell (c d : String) (hne : c ≠ d) :
    ∀ (rs : List Row) (vs : List JVal), vs.length = rs.length →
      ((rs.zip vs).map (fun p => setCell p.1 c p.2)).map (fun r => getCell r d) =
        rs.map (fun r => getCell r d) := by
  intro rs
  induction rs with
  | nil => intro vs h; rfl
  | cons r rs ih =>
    intro vs h
    match vs with
    | [] => simp at h
    | v :: vs =>
      simp only [List.zip_cons_cons, List.map_cons]
      rw [getCell_setCell_ne r d c v hne, ih vs (by simpa using h)]

theorem setColumn_map_getCell_ne (df : DFrame) (c : String) (vs : List JVal)
    (d : String) (hne : c ≠ d) (h : vs.length = df.rows.length) :
    (setColumn df c vs).rows.map (fun r => getCell r d) =
      df.rows.map (fun r => getCell r d) :=
  zip_setCell_map_getCell c d hne df.rows vs h

theorem applyColumn_ok (df : DFrame) (src dst : String)
    (f : JVal → Except Unit JVal) (hsrc : src ∈ df.cols)
    (hf : ∀ v ∈ df.rows.map (fun r => getCell r src), (f v).isOk = true) :
    ∃ df2, applyColumn df src dst f = .ok df2 ∧
      (∀ c, c ∈ df.cols → c ∈ df2.cols) ∧ dst ∈ df2.cols ∧
      df2.rows.length = df.rows.length ∧
      (∀ c, c ≠ dst → df2.rows.map (fun r => getCell r c) =
        df.rows.map (fun r => getCell r c)) := by
  obtain ⟨ws, hws, hlen⟩ := mapExc_ok_of_forall f _ hf
  have hlen2 : ws.length = df.rows.length := by
    rw [hlen, List.length_map]
  refine ⟨setColumn df dst ws, ?_, ?_, ?_, ?_, ?_⟩
  · unfold applyColumn
    rw [getColumn_ok df src hsrc, bindE_okE, hws, bindE_okE]
  · intro c hc; exact mem_setColumn_of_mem df dst ws c hc
  · exact mem_setColumn_self df dst ws
  · exact setColumn_rows_len df dst ws hlen2
  · intro c hc
    exact setColumn_map_getCell_ne df dst ws c (fun hh => hc hh.symm) hlen2

theorem deriveColumn_ok (df : DFrame) (src dst : String) (g : JVal → JVal)
    (hsrc : src ∈ df.cols) :
    ∃ df2, deriveColumn df src dst g = .ok df2 ∧
      (∀ c, c ∈ df.cols → c ∈ df2.cols) ∧ dst ∈ df2.cols ∧
      df2.rows.length = df.rows.length ∧
      (∀ c, c ≠ dst → df2.rows.map (fun r => getCell r c) =
        df.rows.map (fun r => getCell r c)) := by
  have hlen2 : ((df.rows.map (fun r => getCell r src)).map g).length =
      df.rows.length := by
    rw [List.length_map, List.length_map]
  refine ⟨setColumn df dst ((df.rows.map (fun r => getCell r src)).map g),
    ?_, ?_, ?_, ?_, ?_⟩
  · unfold deriveColumn
    rw [getColumn_ok df src hsrc, bindE_okE]
  · intro c hc; exact mem_setColumn_of_mem df dst _ c hc
  · exact mem_setColumn_self df dst _
  · exact setColumn_rows_len df dst _ hlen2
  · intro c hc
    exact setColumn_map_getCell_ne df dst _ c (fun hh => hc hh.symm) hlen2

theorem mem_dropColumns (df : DFrame) (cs : List String) (c : String)
    (h : c ∈ df.cols) (hc : cs.contains c = false) :
    c ∈ (dropColumns df cs).cols := by
  show c ∈ df.cols.filter (fun x => !(cs.contains x))
  rw [List.mem_filter]
  exact ⟨h, by rw [hc]; rfl⟩

theorem dropColumns_map_getCell (df : DFrame) (cs : List String) (c : String)
    (hc : cs.contains c = false) :
    (dropColumns df cs).rows.map (fun r => getCell r c) =
      df.rows.map (fun r => getCell r c) := by
  show (df.rows.map (fun r => removeKeys r cs)).map (fun r => getCell r c) =
    df.rows.map (fun r => getCell r c)
  rw [List.map_map]
  exact List.map_congr_left (fun r hr => getCell_removeKeys r cs c hc)

theorem mem_renameColumns_self (df : DFrame) (mp : List (String × String))
    (c : String) (h : c ∈ df.cols) (hc : renameOf mp c = c) :
    c ∈ (renameColumns df mp).cols := by
  show c ∈ df.cols.map (renameOf mp)
  rw [List.mem_map]
  exact ⟨c, h, hc⟩

theorem toNumericCell_ok (v : JVal) (h : wsNumCell v = true) :
    (toNumericCell v).isOk = true := by
  match v, h with
  | .null, _ | .bool _, _ | .num _, _ | .inf _, _ => rfl
  | .str s, _ =>
    rw [show toNumericCell (.str s) =
      (match parseDec s with
       | some q => .ok (.num q)
       | none => .ok .null) from rfl]
    cases parseDec s <;> rfl

theorem getVal_renameRow (mp : List (String × String)) (c : String)
    (hc : renameOf mp c = c) (hall : ∀ p ∈ mp, p.2 ≠ c) :
    ∀ r : Row, getVal c (r.map (fun p => (renameOf mp p.1, p.2))) =
      getVal c r := by
  intro r
  induction r with
  | nil => rfl
  | cons p fs ih =>
    obtain ⟨k, w⟩ := p
    rw [show ((k, w) :: fs).map (fun p => (renameOf mp p.1, p.2)) =
      (renameOf mp k, w) :: fs.map (fun p => (renameOf mp p.1, p.2)) from rfl]
    rw [show getVal c ((renameOf mp k, w) ::
        fs.map (fun p => (renameOf mp p.1, p.2))) =
      (if renameOf mp k = c then some w
       else getVal c (fs.map (fun p => (renameOf mp p.1, p.2)))) from rfl]
    rw [show getVal c ((k, w) :: fs) =
      (if k = c then some w else getVal c fs) from rfl]
    by_cases hk : renameOf mp k = c
    · have hkc : k = c := by
        unfold renameOf at hk
        cases hf : mp.find? (fun p => p.1 = k) with
        | none => rw [hf] at hk; exact hk
        | some q =>
          rw [hf] at hk
          exact absurd hk (hall q (List.mem_of_find?_eq_some hf))
      rw [if_pos hk, if_pos hkc]
    · have hkc : k ≠ c := fun hh => by
        subst hh
        exact hk hc
      rw [if_neg hk, if_neg hkc]
      exact ih

theorem renameColumns_map_getCell (df : DFrame) (mp : List (String × String))
    (c : String) (hc : renameOf mp c = c) (hall : ∀ p ∈ mp, p.2 ≠ c) :
    (renameColumns df mp).rows.map (fun r => getCell r c) =
      df.rows.map (fun r => getCell r c) := by
  show (df.rows.map (fun r => r.map (fun p => (renameOf mp p.1, p.2)))).map
    (fun r => getCell r c) = df.rows.map (fun r => getCell r c)
  rw [List.map_map]
  refine List.map_congr_left ?_
  intro r hr
  show getCell (r.map (fun p => (renameOf mp p.1, p.2))) c = getCell r c
  unfold getCell
  rw [getVal_renameRow mp c hc hall r]

theorem voteFixStage_ok (df : DFrame) (h : "vote_count" ∈ df.cols) :
    ∃ df2, voteFixStage df = .ok df2 ∧ (∀ c, c ∈ df.cols → c ∈ df2.cols) := by
  unfold voteFixStage
  rw [if_pos h]
  refine ⟨_, rfl, ?_⟩
  intro c hc
  show c ∈ (if "vote_average" ∈ df.cols then df.cols
    else df.cols ++ ["vote_average"])
  by_cases hv : "vote_average" ∈ df.cols
  · rw [if_pos hv]; exact hc
  · rw [if_neg hv]; exact List.mem_append_left _ hc

theorem wsRow_parts (r : Row) (h : wsRow r = true) :
    wsNamed (getCell r "genres") = true ∧
    wsNamed (getCell r "spoken_languages") = true ∧
    wsNamed (getCell r "production_countries") = true ∧
    wsNamed (getCell r "production_companies") = true ∧
    wsCredits (getCell r "credits") = true := by
  have h0 : (wsNamed (getCell r "genres") &&
      wsNamed (getCell r "spoken_languages") &&
      wsNamed (getCell r "production_countries") &&
      wsNamed (getCell r "production_companies") &&
      wsCredits (getCell r "credits")) = true := h
  simp only [Bool.and_eq_true] at h0
  exact ⟨h0.1.1.1.1, h0.1.1.1.2, h0.1.1.2, h0.1.2, h0.2⟩

theorem extractStage_ok (df : DFrame)
    (h1 : "belongs_to_collection" ∈ df.cols) (h2 : "genres" ∈ df.cols)
    (h3 : "spoken_languages" ∈ df.cols) (h4 : "production_countries" ∈ df.cols)
    (h5 : "production_companies" ∈ df.cols) (h6 : "credits" ∈ df.cols)
    (hshape : ∀ r ∈ df.rows, wsRow r = true) :
    ∃ d9, extractStage df = .ok d9 ∧ (∀ c, c ∈ df.cols → c ∈ d9.cols) ∧
      (∀ c, c ≠ "collection_name" → c ≠ "genre_names" →
        c ≠ "language_codes" → c ≠ "country_names" → c ≠ "company_names" →
        c ≠ "cast" → c ≠ "cast_size" → c ≠ "crew_size" → c ≠ "director" →
        d9.rows.map (fun r => getCell r c) =
          df.rows.map (fun r => getCell r c)) := by
  obtain ⟨e1, he1, hmm1, hdd1, hll1, hpp1⟩ :=
    applyColumn_ok df "belongs_to_collection" "collection_name"
      extract_collection_name h1 (fun v hv => extract_collection_name_ok v)
  obtain ⟨e2, he2, hmm2, hdd2, hll2, hpp2⟩ :=
    applyColumn_ok e1 "genres" "genre_names" extract_genres (hmm1 _ h2)
      (fun v hv => by
        rw [hpp1 "genres" (by decide)] at hv
        rw [List.mem_map] at hv
        obtain ⟨r, hr, rfl⟩ := hv
        exact extractNameList_ok _ (wsRow_parts r (hshape r hr)).1)
  obtain ⟨e3, he3, hmm3, hdd3, hll3, hpp3⟩ :=
    applyColumn_ok e2 "spoken_languages" "language_codes"
      extract_spoken_languages (hmm2 _ (hmm1 _ h3))
      (fun v hv => by
        rw [hpp2 "spoken_languages" (by decide),
          hpp1 "spoken_languages" (by decide)] at hv
        rw [List.mem_map] at hv
        obtain ⟨r, hr, rfl⟩ := hv
        exact extractNameList_ok _ (wsRow_parts r (hshape r hr)).2.1)
  obtain ⟨e4, he4, hmm4, hdd4, hll4, hpp4⟩ :=
    applyColumn_ok e3 "production_countries" "country_names"
      extract_production_countries (hmm3 _ (hmm2 _ (hmm1 _ h4)))
      (fun v hv => by
        rw [hpp3 "production_countries" (by decide),
          hpp2 "production_countries" (by decide),
          hpp1 "production_countries" (by decide)] at hv
        rw [List.mem_map] at hv
        obtain ⟨r, hr, rfl⟩ := hv
        exact extractNameList_ok _ (wsRow_parts r (hshape r hr)).2.2.1)
  obtain ⟨e5, he5, hmm5, hdd5, hll5, hpp5⟩ :=
    applyColumn_ok e4 "production_companies" "company_names"
      extract_production_companies (hmm4 _ (hmm3 _ (hmm2 _ (hmm1 _ h5))))
      (fun v hv => by
        rw [hpp4 "production_companies" (by decide),
          hpp3 "production_companies" (by decide),
          hpp2 "production_companies" (by decide),
          hpp1 "production_companies" (by decide)] at hv
        rw [List.mem_map] at hv
        obtain ⟨r, hr, rfl⟩ := hv
        exact extractNameList_ok _ (wsRow_parts r (hshape r hr)).2.2.2.1)
  have hcredmap : ∀ v ∈ e5.rows.map (fun r => getCell r "credits"),
      wsCredits v = true := by
    intro v hv
    rw [hpp5 "credits" (by decide), hpp4 "credits" (by decide),
      hpp3 "credits" (by decide), hpp2 "credits" (by decide),
      hpp1 "credits" (by decide)] at hv
    rw [List.mem_map] at hv
    obtain ⟨r, hr, rfl⟩ := hv
    exact (wsRow_parts r (hshape r hr)).2.2.2.2
  have hcred5 : "credits" ∈ e5.cols :=
    hmm5 _ (hmm4 _ (hmm3 _ (hmm2 _ (hmm1 _ h6))))
  obtain ⟨e6, he6, hmm6, hdd6, hll6, hpp6⟩ :=
    applyColumn_ok e5 "credits" "cast" extract_cast hcred5
      (fun v hv => extract_cast_ok v (hcredmap v hv))
  have hcredmap6 : ∀ v ∈ e6.rows.map (fun r => getCell r "credits"),
      wsCredits v = true := by
    intro v hv
    rw [hpp6 "credits" (by decide)] at hv
    exact hcredmap v hv
  obtain ⟨e7, he7, hmm7, hdd7, hll7, hpp7⟩ :=
    applyColumn_ok e6 "credits" "cast_size" extract_cast_size (hmm6 _ hcred5)
      (fun v hv => extract_cast_size_ok v (hcredmap6 v hv))
  have hcredmap7 : ∀ v ∈ e7.rows.map (fun r => getCell r "credits"),
      wsCredits v = true := by
    intro v hv
    rw [hpp7 "credits" (by decide)] at hv
    exact hcredmap6 v hv
  obtain ⟨e8, he8, hmm8, hdd8, hll8, hpp8⟩ :=
    applyColumn_ok e7 "credits" "crew_size" extract_crew_size
      (hmm7 _ (hmm6 _ hcred5))
      (fun v hv => extract_crew_size_ok v (hcredmap7 v hv))
  have hcredmap8 : ∀ v ∈ e8.rows.map (fun r => getCell r "credits"),
      wsCredits v = true := by
    intro v hv
    rw [hpp8 "credits" (by decide)] at hv
    exact hcredmap7 v hv
  obtain ⟨e9, he9, hmm9, hdd9, hll9, hpp9⟩ :=
    applyColumn_ok e8 "credits" "director" extract_director
      (hmm8 _ (hmm7 _ (hmm6 _ hcred5)))
      (fun v hv => extract_director_ok v (hcredmap8 v hv))
  refine ⟨e9, ?_, ?_, ?_⟩
  · rw [show extractStage df =
      bindE (applyColumn df "belongs_to_collection" "collection_name"
        extract_collection_name) (fun d1 =>
      bindE (applyColumn d1 "genres" "genre_names" extract_genres) (fun d2 =>
      bindE (applyColumn d2 "spoken_languages" "language_codes"
        extract_spoken_languages) (fun d3 =>
      bindE (applyColumn d3 "production_countries" "country_names"
        extract_production_countries) (fun d4 =>
      bindE (applyColumn d4 "production_companies" "company_names"
        extract_production_companies) (fun d5 =>
      bindE (applyColumn d5 "credits" "cast" extract_cast) (fun d6 =>
      bindE (applyColumn d6 "credits" "cast_size" extract_cast_size) (fun d7 =>
      bindE (applyColumn d7 "credits" "crew_size" extract_crew_size) (fun d8 =>
      applyColumn d8 "credits" "director" extract_director))))))))
      from rfl]
    rw [he1, bindE_okE, he2, bindE_okE, he3, bindE_okE, he4, bindE_okE,
      he5, bindE_okE, he6, bindE_okE, he7, bindE_okE, he8, bindE_okE]
    exact he9
  · intro c hc
    exact hmm9 _ (hmm8 _ (hmm7 _ (hmm6 _ (hmm5 _ (hmm4 _ (hmm3 _
      (hmm2 _ (hmm1 _ hc))))))))
  · intro c n1 n2 n3 n4 n5 n6 n7 n8 n9
    rw [hpp9 c n9, hpp8 c n8, hpp7 c n7, hpp6 c n6, hpp5 c n5, hpp4 c n4,
      hpp3 c n3, hpp2 c n2, hpp1 c n1]

theorem numericStage_ok (df : DFrame)
    (hb : "budget" ∈ df.cols) (hr : "revenue" ∈ df.cols)
    (hi : "id" ∈ df.cols) (hp : "popularity" ∈ df.cols)
    (hvc : "vote_count" ∈ df.cols) (hva : "vote_average" ∈ df.cols)
    (hrt : "runtime" ∈ df.cols) (hrd : "release_date" ∈ df.cols)
    (hnb : ∀ v ∈ df.rows.map (fun r => getCell r "budget"), wsNumCell v = true)
    (hnr : ∀ v ∈ df.rows.map (fun r => getCell r "revenue"), wsNumCell v = true)
    (hni : ∀ v ∈ df.rows.map (fun r => getCell r "id"), wsNumCell v = true)
    (hnp : ∀ v ∈ df.rows.map (fun r => getCell r "popularity"), wsNumCell v = true)
    (hnvc : ∀ v ∈ df.rows.map (fun r => getCell r "vote_count"), wsNumCell v = true)
    (hnva : ∀ v ∈ df.rows.map (fun r => getCell r "vote_average"), wsNumCell v = true)
    (hnrt : ∀ v ∈ df.rows.map (fun r => getCell r "runtime"), wsNumCell v = true) :
    ∃ d8, numericStage df = .ok d8 ∧ (∀ c, c ∈ df.cols → c ∈ d8.cols) := by
  obtain ⟨e1, he1, hmm1, -, -, hpp1⟩ :=
    applyColumn_ok df "budget" "budget" toNumericCell hb
      (fun v hv => toNumericCell_ok v (hnb v hv))
  obtain ⟨e2, he2, hmm2, -, -, hpp2⟩ :=
    applyColumn_ok e1 "revenue" "revenue" toNumericCell (hmm1 _ hr)
      (fun v hv => toNumericCell_ok v (hnr v (by
        rwa [hpp1 "revenue" (by decide)] at hv)))
  obtain ⟨e3, he3, hmm3, -, -, hpp3⟩ :=
    applyColumn_ok e2 "id" "id" toNumericCell (hmm2 _ (hmm1 _ hi))
      (fun v hv => toNumericCell_ok v (hni v (by
        rwa [hpp2 "id" (by decide), hpp1 "id" (by decide)] at hv)))
  obtain ⟨e4, he4, hmm4, -, -, hpp4⟩ :=
    applyColumn_ok e3 "popularity" "popularity" toNumericCell
      (hmm3 _ (hmm2 _ (hmm1 _ hp)))
      (fun v hv => toNumericCell_ok v (hnp v (by
        rwa [hpp3 "popularity" (by decide), hpp2 "popularity" (by decide),
          hpp1 "popularity" (by decide)] at hv)))
  obtain ⟨e5, he5, hmm5, -, -, hpp5⟩ :=
    applyColumn_ok e4 "vote_count" "vote_count" toNumericCell
      (hmm4 _ (hmm3 _ (hmm2 _ (hmm1 _ hvc))))
      (fun v hv => toNumericCell_ok v (hnvc v (by
        rwa [hpp4 "vote_count" (by decide), hpp3 "vote_count" (by decide),
          hpp2 "vote_count" (by decide),
          hpp1 "vote_count" (by decide)] at hv)))
  obtain ⟨e6, he6, hmm6, -, -, hpp6⟩ :=
    applyColumn_ok e5 "vote_average" "vote_average" toNumericCell
      (hmm5 _ (hmm4 _ (hmm3 _ (hmm2 _ (hmm1 _ hva)))))
      (fun v hv => toNumericCell_ok v (hnva v (by
        rwa [hpp5 "vote_average" (by decide), hpp4 "vote_average" (by decide),
          hpp3 "vote_average" (by decide), hpp2 "vote_average" (by decide),
          hpp1 "vote_average" (by decide)] at hv)))
  obtain ⟨e7, he7, hmm7, -, -, hpp7⟩ :=
    applyColumn_ok e6 "runtime" "runtime" toNumericCell
      (hmm6 _ (hmm5 _ (hmm4 _ (hmm3 _ (hmm2 _ (hmm1 _ hrt))))))
      (fun v hv => toNumericCell_ok v (hnrt v (by
        rwa [hpp6 "runtime" (by decide), hpp5 "runtime" (by decide),
          hpp4 "runtime" (by decide), hpp3 "runtime" (by decide),
          hpp2 "runtime" (by decide), hpp1 "runtime" (by decide)] at hv)))
  obtain ⟨e8, he8, hmm8, -, -, -⟩ :=
    deriveColumn_ok e7 "release_date" "release_date" toDateCell
      (hmm7 _ (hmm6 _ (hmm5 _ (hmm4 _ (hmm3 _ (hmm2 _ (hmm1 _ hrd)))))))
  refine ⟨e8, ?_, ?_⟩
  · rw [show numericStage df =
      bindE (applyColumn df "budget" "budget" toNumericCell) (fun d1 =>
      bindE (applyColumn d1 "revenue" "revenue" toNumericCell) (fun d2 =>
      bindE (applyColumn d2 "id" "id" toNumericCell) (fun d3 =>
      bindE (applyColumn d3 "popularity" "popularity" toNumericCell) (fun d4 =>
      bindE (applyColumn d4 "vote_count" "vote_count" toNumericCell) (fun d5 =>
      bindE (applyColumn d5 "vote_average" "vote_average" toNumericCell) (fun d6 =>
      bindE (applyColumn d6 "runtime" "runtime" toNumericCell) (fun d7 =>
      deriveColumn d7 "release_date" "release_date" toDateCell)))))))
      from rfl]
    rw [he1, bindE_okE, he2, bindE_okE, he3, bindE_okE, he4, bindE_okE,
      he5, bindE_okE, he6, bindE_okE, he7, bindE_okE]
    exact he8
  · intro c hc
    exact hmm8 _ (hmm7 _ (hmm6 _ (hmm5 _ (hmm4 _ (hmm3 _ (hmm2 _ (hmm1 _ hc)))))))

theorem zeroStage_ok (df : DFrame)
    (hb : "budget" ∈ df.cols) (hr : "revenue" ∈ df.cols)
    (hrt : "runtime" ∈ df.cols) :
    ∃ d3, zeroStage df = .ok d3 ∧ (∀ c, c ∈ df.cols → c ∈ d3.cols) := by
  obtain ⟨e1, he1, hmm1, -, -, -⟩ :=
    deriveColumn_ok df "budget" "budget" zeroToNull hb
  obtain ⟨e2, he2, hmm2, -, -, -⟩ :=
    deriveColumn_ok e1 "revenue" "revenue" zeroToNull (hmm1 _ hr)
  obtain ⟨e3, he3, hmm3, -, -, -⟩ :=
    deriveColumn_ok e2 "runtime" "runtime" zeroToNull (hmm2 _ (hmm1 _ hrt))
  refine ⟨e3, ?_, fun c hc => hmm3 _ (hmm2 _ (hmm1 _ hc))⟩
  rw [show zeroStage df =
    bindE (deriveColumn df "budget" "budget" zeroToNull) (fun d1 =>
    bindE (deriveColumn d1 "revenue" "revenue" zeroToNull) (fun d2 =>
    deriveColumn d2 "runtime" "runtime" zeroToNull)) from rfl]
  rw [he1, bindE_okE, he2, bindE_okE]
  exact he3

theorem musdStage_ok (df : DFrame)
    (hb : "budget" ∈ df.cols) (hr : "revenue" ∈ df.cols) :
    ∃ d2, musdStage df = .ok d2 ∧ (∀ c, c ∈ df.cols → c ∈ d2.cols) := by
  obtain ⟨e1, he1, hmm1, -, -, -⟩ :=
    deriveColumn_ok df "budget" "budget_musd" musdCell hb
  obtain ⟨e2, he2, hmm2, -, -, -⟩ :=
    deriveColumn_ok e1 "revenue" "revenue_musd" musdCell (hmm1 _ hr)
  refine ⟨e2, ?_, fun c hc => hmm2 _ (hmm1 _ hc)⟩
  rw [show musdStage df =
    bindE (deriveColumn df "budget" "budget_musd" musdCell) (fun d1 =>
    deriveColumn d1 "revenue" "revenue_musd" musdCell) from rfl]
  rw [he1, bindE_okE]
  exact he2

theorem textStage_ok (df : DFrame)
    (ho : "overview" ∈ df.cols) (ht : "tagline" ∈ df.cols) :
    ∃ d2, textStage df = .ok d2 ∧ (∀ c, c ∈ df.cols → c ∈ d2.cols) := by
  obtain ⟨e1, he1, hmm1, -, -, -⟩ :=
    deriveColumn_ok df "overview" "overview"
      (cleanText ["", "No overview found.", "No Overview"]) ho
  obtain ⟨e2, he2, hmm2, -, -, -⟩ :=
    deriveColumn_ok e1 "tagline" "tagline"
      (cleanText ["", "No tagline."]) (hmm1 _ ht)
  refine ⟨e2, ?_, fun c hc => hmm2 _ (hmm1 _ hc)⟩
  rw [show textStage df =
    bindE (deriveColumn df "overview" "overview"
      (cleanText ["", "No overview found.", "No Overview"])) (fun d1 =>
    deriveColumn d1 "tagline" "tagline" (cleanText ["", "No tagline."]))
    from rfl]
  rw [he1, bindE_okE]
  exact he2

theorem requiredCols_not_dropped :
    ∀ c ∈ requiredCols, irrelevantCols.contains c = false := by decide

theorem wsNumRow_parts (r : Row) (h : wsNumRow r = true) :
    wsNumCell (getCell r "budget") = true ∧
    wsNumCell (getCell r "revenue") = true ∧
    wsNumCell (getCell r "id") = true ∧
    wsNumCell (getCell r "popularity") = true ∧
    wsNumCell (getCell r "vote_count") = true ∧
    wsNumCell (getCell r "vote_average") = true ∧
    wsNumCell (getCell r "runtime") = true := by
  have h0 : (wsNumCell (getCell r "budget") &&
      wsNumCell (getCell r "revenue") && wsNumCell (getCell r "id") &&
      wsNumCell (getCell r "popularity") &&
      wsNumCell (getCell r "vote_count") &&
      wsNumCell (getCell r "vote_average") &&
      wsNumCell (getCell r "runtime")) = true := h
  simp only [Bool.and_eq_true] at h0
  exact ⟨h0.1.1.1.1.1.1, h0.1.1.1.1.1.2, h0.1.1.1.1.2, h0.1.1.1.2,
    h0.1.1.2, h0.1.2, h0.2⟩

theorem preDedup_ok (df : DFrame)
    (hreq : ∀ c ∈ requiredCols, c ∈ df.cols)
    (hshape : ∀ r ∈ df.rows, wsRow r = true)
    (hnum : ∀ r ∈ df.rows, wsNumRow r = true) :
    ∃ m, preDedup df = .ok m ∧ "id" ∈ m.cols ∧ "title" ∈ m.cols := by
  have hmem0 : ∀ c ∈ requiredCols, c ∈ (dropColumns df irrelevantCols).cols :=
    fun c hc => mem_dropColumns df irrelevantCols c (hreq c hc)
      (requiredCols_not_dropped c hc)
  have hshape0 : ∀ r ∈ (dropColumns df irrelevantCols).rows, wsRow r = true := by
    intro r hr
    rw [show (dropColumns df irrelevantCols).rows =
      df.rows.map (fun r => removeKeys r irrelevantCols) from rfl] at hr
    rw [List.mem_map] at hr
    obtain ⟨r0, hr0, rfl⟩ := hr
    show (wsNamed (getCell (removeKeys r0 irrelevantCols) "genres") &&
      wsNamed (getCell (removeKeys r0 irrelevantCols) "spoken_languages") &&
      wsNamed (getCell (removeKeys r0 irrelevantCols) "production_countries") &&
      wsNamed (getCell (removeKeys r0 irrelevantCols) "production_companies") &&
      wsCredits (getCell (removeKeys r0 irrelevantCols) "credits")) = true
    rw [getCell_removeKeys _ _ _ (by decide), getCell_removeKeys _ _ _ (by decide),
      getCell_removeKeys _ _ _ (by decide), getCell_removeKeys _ _ _ (by decide),
      getCell_removeKeys _ _ _ (by decide)]
    exact hshape r0 hr0
  obtain ⟨d1, hd1, hmem1, hmap1⟩ := extractStage_ok (dropColumns df irrelevantCols)
    (hmem0 _ (by decide)) (hmem0 _ (by decide)) (hmem0 _ (by decide))
    (hmem0 _ (by decide)) (hmem0 _ (by decide)) (hmem0 _ (by decide)) hshape0
  have hmem3 : ∀ c, c ∈ requiredCols → jsonCols.contains c = false →
      renameOf renameMap c = c →
      c ∈ (renameColumns (dropColumns d1 jsonCols) renameMap).cols := by
    intro c hc hj hrn
    exact mem_renameColumns_self _ _ _
      (mem_dropColumns _ _ _ (hmem1 _ (hmem0 _ hc)) hj) hrn
  have hmap3 : ∀ c, jsonCols.contains c = false →
      irrelevantCols.contains c = false → renameOf renameMap c = c →
      (∀ p ∈ renameMap, p.2 ≠ c) →
      c ≠ "collection_name" → c ≠ "genre_names" → c ≠ "language_codes" →
      c ≠ "country_names" → c ≠ "company_names" → c ≠ "cast" →
      c ≠ "cast_size" → c ≠ "crew_size" → c ≠ "director" →
      (renameColumns (dropColumns d1 jsonCols) renameMap).rows.map
        (fun r => getCell r c) = df.rows.map (fun r => getCell r c) := by
    intro c hj hirr hrn hall n1 n2 n3 n4 n5 n6 n7 n8 n9
    rw [renameColumns_map_getCell _ _ _ hrn hall,
      dropColumns_map_getCell _ _ _ hj,
      hmap1 c n1 n2 n3 n4 n5 n6 n7 n8 n9,
      dropColumns_map_getCell _ _ _ hirr]
  have hnump : ∀ (c : String)
      (hsel : ∀ r : Row, wsNumRow r = true → wsNumCell (getCell r c) = true),
      (renameColumns (dropColumns d1 jsonCols) renameMap).rows.map
          (fun r => getCell r c) = df.rows.map (fun r => getCell r c) →
      ∀ v ∈ (renameColumns (dropColumns d1 jsonCols) renameMap).rows.map
        (fun r => getCell r c), wsNumCell v = true := by
    intro c hsel heq v hv
    rw [heq, List.mem_map] at hv
    obtain ⟨r, hr, rfl⟩ := hv
    exact hsel r (hnum r hr)
  have hb3 := hmem3 "budget" (by decide) (by decide) (by decide)
  have hr3 := hmem3 "revenue" (by decide) (by decide) (by decide)
  have hi3 := hmem3 "id" (by decide) (by decide) (by decide)
  have hp3 := hmem3 "popularity" (by decide) (by decide) (by decide)
  have hvc3 := hmem3 "vote_count" (by decide) (by decide) (by decide)
  have hva3 := hmem3 "vote_average" (by decide) (by decide) (by decide)
  have hrt3 := hmem3 "runtime" (by decide) (by decide) (by decide)
  have hrd3 := hmem3 "release_date" (by decide) (by decide) (by decide)
  have hov3 := hmem3 "overview" (by decide) (by decide) (by decide)
  have htg3 := hmem3 "tagline" (by decide) (by decide) (by decide)
  have hti3 := hmem3 "title" (by decide) (by decide) (by decide)
  obtain ⟨d4, hd4, hmem4⟩ := numericStage_ok
    (renameColumns (dropColumns d1 jsonCols) renameMap)
    hb3 hr3 hi3 hp3 hvc3 hva3 hrt3 hrd3
    (hnump "budget" (fun r hr => (wsNumRow_parts r hr).1)
      (hmap3 "budget" (by decide) (by decide) (by decide) (by decide)
        (by decide) (by decide) (by decide) (by decide) (by decide)
        (by decide) (by decide) (by decide) (by decide)))
    (hnump "revenue" (fun r hr => (wsNumRow_parts r hr).2.1)
      (hmap3 "revenue" (by decide) (by decide) (by decide) (by decide)
        (by decide) (by decide) (by decide) (by decide) (by decide)
        (by decide) (by decide) (by decide) (by decide)))
    (hnump "id" (fun r hr => (wsNumRow_parts r hr).2.2.1)
      (hmap3 "id" (by decide) (by decide) (by decide) (by decide)
        (by decide) (by decide) (by decide) (by decide) (by decide)
        (by decide) (by decide) (by decide) (by decide)))
    (hnump "popularity" (fun r hr => (wsNumRow_parts r hr).2.2.2.1)
      (hmap3 "popularity" (by decide) (by decide) (by decide) (by decide)
        (by decide) (by decide) (by decide) (by decide) (by decide)
        (by decide) (by decide) (by decide) (by decide)))
    (hnump "vote_count" (fun r hr => (wsNumRow_parts r hr).2.2.2.2.1)
      (hmap3 "vote_count" (by decide) (by decide) (by decide) (by decide)
        (by decide) (by decide) (by decide) (by decide) (by decide)
        (by decide) (by decide) (by decide) (by decide)))
    (hnump "vote_average" (fun r hr => (wsNumRow_parts r hr).2.2.2.2.2.1)
      (hmap3 "vote_average" (by decide) (by decide) (by decide) (by decide)
        (by decide) (by decide) (by decide) (by decide) (by decide)
        (by decide) (by decide) (by decide) (by decide)))
    (hnump "runtime" (fun r hr => (wsNumRow_parts r hr).2.2.2.2.2.2)
      (hmap3 "runtime" (by decide) (by decide) (by decide) (by decide)
        (by decide) (by decide) (by decide) (by decide) (by decide)
        (by decide) (by decide) (by decide) (by decide)))
  obtain ⟨d5, hd5, hmem5⟩ := zeroStage_ok d4
    (hmem4 _ hb3) (hmem4 _ hr3) (hmem4 _ hrt3)
  obtain ⟨d6, hd6, hmem6⟩ := musdStage_ok d5
    (hmem5 _ (hmem4 _ hb3)) (hmem5 _ (hmem4 _ hr3))
  obtain ⟨d7, hd7, hmem7⟩ := voteFixStage_ok d6
    (hmem6 _ (hmem5 _ (hmem4 _ hvc3)))
  obtain ⟨m, hmfin, hmem8⟩ := textStage_ok d7
    (hmem7 _ (hmem6 _ (hmem5 _ (hmem4 _ hov3))))
    (hmem7 _ (hmem6 _ (hmem5 _ (hmem4 _ htg3))))
  refine ⟨m, ?_, ?_, ?_⟩
  · rw [show preDedup df =
      bindE (extractStage (dropColumns df irrelevantCols)) (fun d1 =>
      bindE (numericStage (renameColumns (dropColumns d1 jsonCols) renameMap))
        (fun d4 =>
      bindE (zeroStage d4) (fun d5 =>
      bindE (musdStage d5) (fun d6 =>
      bindE (voteFixStage d6) (fun d7 =>
      textStage d7))))) from rfl]
    rw [hd1, bindE_okE, hd4, bindE_okE, hd5, bindE_okE, hd6, bindE_okE,
      hd7, bindE_okE]
    exact hmfin
  · exact hmem8 _ (hmem7 _ (hmem6 _ (hmem5 _ (hmem4 _ hi3))))
  · exact hmem8 _ (hmem7 _ (hmem6 _ (hmem5 _ (hmem4 _ hti3))))

/-- C2 counterexample: a batch whose schema contains id and title (and
nothing else) makes the pipeline raise — the unconditional read of the
belongs-to-collection column is a `KeyError` — contradicting "the only
fatal condition is id or title being absent from the schema". -/
theorem C2_counterexample :
    "id" ∈ batchIdTitleOnly.cols ∧ "title" ∈ batchIdTitleOnly.cols ∧
    (run batchIdTitleOnly).isOk = false := by
  refine ⟨by decide, by decide, by decide!⟩

/-- C2 (amended): the pipeline run never raises on a batch whose schema
contains all seventeen unconditionally-read columns (id, title, the seven
numeric columns, release date, overview, tagline, and the six nested-JSON
columns), whose records are well-shaped in their nested fields, and whose
numeric cells are scalars (`pd.to_numeric(errors="coerce")` raises
`TypeError` on a list or dict cell even in coerce mode).  Absence of ANY
of those seventeen columns is fatal, not just id or title, as
`C2_counterexample` shows.  Truly optional columns (the five dropped
ones, status, poster_path, original_language) may be absent and are
handled silently. -/
theorem C2_theorem (df : DFrame)
    (hreq : ∀ c ∈ requiredCols, c ∈ df.cols)
    (hshape : ∀ r ∈ df.rows, wsRow r = true)
    (hnum : ∀ r ∈ df.rows, wsNumRow r = true) :
    (run df).isOk = true := by
  obtain ⟨m, hm, hid, htitle⟩ := preDedup_ok df hreq hshape hnum
  rw [show run df = bindE (preDedup df) (fun m =>
    bindE (dropnaIdTitle (dropDuplicatesId m)) (fun d2 =>
    .ok (reorderColumns (statusFilter (dropnaThresh 10 d2))))) from rfl]
  rw [hm, bindE_okE]
  have hok : dropnaIdTitle (dropDuplicatesId m) =
      .ok { cols := (dropDuplicatesId m).cols,
            rows := (dropDuplicatesId m).rows.filter (fun r =>
              getCell r "id" != JVal.null &&
              getCell r "title" != JVal.null) } := by
    unfold dropnaIdTitle
    rw [if_pos]
    exact ⟨hid, htitle⟩
  rw [hok, bindE_okE]
  rfl

/-- C2 witness: a complete well-shaped one-record batch runs without
raising. -/
theorem C2_witness : (run (mkDF [recFull])).isOk = true :=
  C2_theorem (mkDF [recFull]) (by decide) (by decide) (by decide)

end MovieClean
